import Mathlib

/-!
# AudioStreamChannelsReader

A shallow embedding of `src/AudioStreamChannelsReader.cpp` (the `GST_API_VERSION_1`
configuration, the one that has `handleSample`), and the properties of its
pad-driven pipeline construction and per-channel buffer collection.

The reader is a record of the C++ data members.  The GStreamer / GLib calls a
member function makes on the graph, the bus, the loop and the buffer lists are
appended, in program order, to the `calls` field; what the framework hands back
to a handler (the pulled sample, the result of a pad link) is an argument of the
handler.  Logging (`printf`, `g_print`, `g_warning`) is not recorded.
-/

set_option linter.unusedVariables false

namespace AudioStreamChannelsReader

/-! ## Framework vocabulary -/

/-- Address of a framework object (element, pipeline, loop, pad). -/
abbrev Handle := Nat

/-- The `GstState` enumeration. -/
inductive GstState where
  | GST_STATE_VOID_PENDING
  | GST_STATE_NULL
  | GST_STATE_READY
  | GST_STATE_PAUSED
  | GST_STATE_PLAYING
  deriving DecidableEq, Repr

/-- Numeric value of a `GstState`, the order in which states are climbed. -/
def GstState.toNat : GstState → Nat
  | .GST_STATE_VOID_PENDING => 0
  | .GST_STATE_NULL => 1
  | .GST_STATE_READY => 2
  | .GST_STATE_PAUSED => 3
  | .GST_STATE_PLAYING => 4

/-- The `GstFlowReturn` values `handleSample` returns. -/
inductive GstFlowReturn where
  | GST_FLOW_OK
  | GST_FLOW_ERROR
  deriving DecidableEq, Repr

/-- The `GstPadLinkReturn` enumeration, the result of `gst_pad_link_full`. -/
inductive GstPadLinkReturn where
  | GST_PAD_LINK_OK
  | GST_PAD_LINK_WRONG_HIERARCHY
  | GST_PAD_LINK_WAS_LINKED
  | GST_PAD_LINK_WRONG_DIRECTION
  | GST_PAD_LINK_NOFORMAT
  | GST_PAD_LINK_NOSCHED
  | GST_PAD_LINK_REFUSED
  deriving DecidableEq, Repr

/-- `GST_MESSAGE_TYPE(message)`: the cases `handleMessage` switches on, and the rest. -/
inductive GstMessageType where
  | GST_MESSAGE_EOS
  | GST_MESSAGE_WARNING
  | GST_MESSAGE_ERROR
  | GST_MESSAGE_STATE_CHANGED
  | GST_MESSAGE_STREAM_STATUS
  | OTHER (code : Nat)
  deriving DecidableEq, Repr

/-- `GstAudioChannelPosition`: the two cases `handleSample` switches on, and the rest. -/
inductive GstAudioChannelPosition where
  | GST_AUDIO_CHANNEL_POSITION_FRONT_LEFT
  | GST_AUDIO_CHANNEL_POSITION_FRONT_RIGHT
  | OTHER (code : Int)
  deriving DecidableEq, Repr

/-- A `GstBuffer` as `handleSample` sees it: its address and `GST_BUFFER_DURATION`
(a `GstClockTime`, nanoseconds). -/
structure GstBuffer where
  id : Handle
  duration : Nat
  deriving DecidableEq, Repr

/-- The fields of the `GstAudioInfo` that `gst_audio_info_from_caps` fills and
`handleSample` reads: `GST_AUDIO_INFO_RATE` and `GST_AUDIO_INFO_POSITION(&info, 0)`. -/
structure GstAudioInfo where
  rate : Nat
  position0 : GstAudioChannelPosition
  deriving DecidableEq, Repr

/-- A `GstCaps`, by the audio info `gst_audio_info_from_caps` reads from it (the source
does not check the result of that call; the caps an appsink behind the splitter delivers
are audio caps). -/
structure GstCaps where
  info : GstAudioInfo
  deriving DecidableEq, Repr

/-- A `GstSample`: `gst_sample_get_buffer` and `gst_sample_get_caps` may each be null. -/
structure GstSample where
  buffer : Option GstBuffer
  caps : Option GstCaps
  deriving DecidableEq, Repr

/-- Element factories named in the source. -/
inductive Factory where
  | filesrc
  | decodebin
  | pulsesrc
  | audioconvert
  | audioresample
  | capsfilter
  | deinterleave
  | queue
  | appsink
  deriving DecidableEq, Repr

/-- The callbacks the reader registers. -/
inductive Callback where
  | onAppsinkPullRequiredCallback
  | messageCallback
  | onGStreamerDeinterleavePadAddedCallback
  | onGStreamerDeinterleaveReadyCallback
  | onGStreamerDecodebinPadAddedCallback
  deriving DecidableEq, Repr

/-- The signals the reader connects to. -/
inductive Signal where
  | message
  | pad_added
  | no_more_pads
  deriving DecidableEq, Repr

/-- The two buffer lists of the reader. -/
inductive BufferListField where
  | m_frontLeftBuffers
  | m_frontRightBuffers
  deriving DecidableEq, Repr

/-- Properties set with `g_object_set`. -/
inductive Property where
  | location (path : String)
  | keep_positions (value : Bool)
  | caps (channels : Int) (rate : Int)
  | sync (value : Bool)
  deriving DecidableEq, Repr

/-- A framework call made by the reader, with its arguments (and, where the framework
hands something back, the result).  A `busOf` argument names the bus of that pipeline
(`webkitGstPipelineGetBus`); a `sinkPadOf` argument names the static sink pad of that
element. -/
inductive GstCall where
  | gst_pipeline_new (result : Handle)
  | gst_bus_add_signal_watch (busOf : Option Handle)
  | gst_bus_remove_signal_watch (busOf : Option Handle)
  | g_signal_connect_bus (busOf : Option Handle) (signal : Signal) (cb : Callback)
  | g_signal_handlers_disconnect_by_func_bus (busOf : Option Handle) (cb : Callback)
  | g_signal_connect (object : Handle) (signal : Signal) (cb : Callback)
  | g_signal_handlers_disconnect_by_func (object : Handle) (cb : Callback)
  | gst_element_factory_make (factory : Factory) (result : Handle)
  | g_object_set (object : Handle) (property : Property)
  | gst_app_sink_set_callbacks (sink : Handle) (new_sample : Callback)
  | gst_bin_add_many (bin : Option Handle) (elements : List Handle)
  | gst_pad_link_full (srcPad : Handle) (sinkPadOf : Handle) (result : GstPadLinkReturn)
  | gst_element_link_pads_full (src : Handle) (dest : Handle)
  | gst_element_sync_state_with_parent (element : Handle)
  | gst_element_set_state (element : Option Handle) (state : GstState)
  | gst_object_unref (object : Option Handle)
  | gst_buffer_list_new (field : BufferListField)
  | gst_buffer_list_unref (field : BufferListField)
  | g_main_loop_new (result : Handle)
  | g_main_loop_run (loop : Option Handle)
  | g_main_loop_quit (loop : Option Handle)
  deriving DecidableEq, Repr

/-! ## Machine integers -/

/-- 2^32, the modulus of `unsigned` and `int`. -/
def UINT_MODULUS : Nat := 4294967296

/-- `G_MAXUINT64`. -/
def G_MAXUINT64 : Nat := 18446744073709551615

/-- `GST_SECOND`, the nanoseconds of one second. -/
def GST_SECOND : Nat := 1000000000

/-- Conversion of a `guint64` to `int`: the low 32 bits, read as two's complement. -/
def toInt (n : Nat) : Int :=
  if n % UINT_MODULUS < UINT_MODULUS / 2 then ((n % UINT_MODULUS : Nat) : Int)
  else ((n % UINT_MODULUS : Nat) : Int) - (UINT_MODULUS : Int)

/-- `unsigned += int`: the `int` is converted to `unsigned` and the sum wraps at 2^32. -/
def addAssignUnsigned (u : Nat) (i : Int) : Nat :=
  (((u : Int) + i) % (UINT_MODULUS : Int)).toNat

/-- Modelled from the spec: the macro `GST_CLOCK_TIME_TO_FRAMES(clocktime, rate)` of
`gst/audio/audio.h` is not part of the repository.  It is the rounded value of
`clocktime * rate / 10^9` (`gst_util_uint64_scale_round`), a `guint64`, hence never
above `G_MAXUINT64`. -/
def GST_CLOCK_TIME_TO_FRAMES (clocktime rate : Nat) : Nat :=
  min G_MAXUINT64 ((clocktime * rate + GST_SECOND / 2) / GST_SECOND)

/-! ## The reader -/

/-- The data members of `AudioStreamChannelsReader` (lines 93-111), and the calls made
so far.  A pointer is an `Option Handle` (`none` is null); a buffer list is the list of
the buffers added to it; `m_sampleRate`, a `float` the source only reads through
`static_cast<int>`, is the integer it truncates to. -/
structure Reader where
  m_data : Option Handle
  m_dataSize : Nat
  m_filePath : Option String
  m_sampleRate : Int
  m_frontLeftBuffers : List GstBuffer
  m_frontRightBuffers : List GstBuffer
  m_pipeline : Option Handle
  m_channelSize : Nat
  m_decodebin : Option Handle
  m_deInterleave : Option Handle
  m_loop : Option Handle
  m_errorOccurred : Bool
  /-- Next address the framework hands out. -/
  nextHandle : Handle
  /-- Framework calls made so far, oldest first. -/
  calls : List GstCall
  deriving DecidableEq, Repr

/-- The members no constructor initialises (`m_sampleRate`, the two buffer lists,
`m_pipeline`): whatever the storage holds. -/
structure Indeterminate where
  m_sampleRate : Int
  m_frontLeftBuffers : List GstBuffer
  m_frontRightBuffers : List GstBuffer
  m_pipeline : Option Handle
  deriving DecidableEq, Repr

/-- `AudioStreamChannelsReader(const char* filePath)`, lines 175-182.  The `GRefPtr`
members are default-constructed null. -/
def ofFilePath (raw : Indeterminate) (filePath : Option String) : Reader :=
  { m_data := none
    m_dataSize := 0
    m_filePath := filePath
    m_sampleRate := raw.m_sampleRate
    m_frontLeftBuffers := raw.m_frontLeftBuffers
    m_frontRightBuffers := raw.m_frontRightBuffers
    m_pipeline := raw.m_pipeline
    m_channelSize := 0
    m_decodebin := none
    m_deInterleave := none
    m_loop := none
    m_errorOccurred := false
    nextHandle := 0
    calls := [] }

/-- `AudioStreamChannelsReader(const void* data, size_t dataSize)`, lines 184-191. -/
def ofData (raw : Indeterminate) (data : Option Handle) (dataSize : Nat) : Reader :=
  { m_data := data
    m_dataSize := dataSize
    m_filePath := none
    m_sampleRate := raw.m_sampleRate
    m_frontLeftBuffers := raw.m_frontLeftBuffers
    m_frontRightBuffers := raw.m_frontRightBuffers
    m_pipeline := raw.m_pipeline
    m_channelSize := 0
    m_decodebin := none
    m_deInterleave := none
    m_loop := none
    m_errorOccurred := false
    nextHandle := 0
    calls := [] }

/-- Append framework calls to the record. -/
def Reader.call (s : Reader) (cs : List GstCall) : Reader :=
  { s with calls := s.calls ++ cs }

/-- `handleSample`, lines 225-264.  `pulled` is what `gst_app_sink_pull_sample(sink)`
returns. -/
def handleSample (s : Reader) (pulled : Option GstSample) : Reader × GstFlowReturn :=
  match pulled with
  | none => (s, .GST_FLOW_ERROR)
  | some sample =>
    match sample.buffer with
    | none => (s, .GST_FLOW_ERROR)
    | some buffer =>
      match sample.caps with
      | none => (s, .GST_FLOW_ERROR)
      | some caps =>
        let info := caps.info
        let frames : Int := toInt (GST_CLOCK_TIME_TO_FRAMES buffer.duration info.rate)
        match info.position0 with
        | .GST_AUDIO_CHANNEL_POSITION_FRONT_LEFT =>
          ({ s with
              m_frontLeftBuffers := s.m_frontLeftBuffers ++ [buffer]
              m_channelSize := addAssignUnsigned s.m_channelSize frames },
            .GST_FLOW_OK)
        | .GST_AUDIO_CHANNEL_POSITION_FRONT_RIGHT =>
          ({ s with m_frontRightBuffers := s.m_frontRightBuffers ++ [buffer] },
            .GST_FLOW_OK)
        | _ => (s, .GST_FLOW_OK)

/-- `handleMessage`, lines 328-368; the result is the `gboolean` returned. -/
def handleMessage (s : Reader) (message : GstMessageType) : Reader × Bool :=
  match message with
  | .GST_MESSAGE_EOS => (s.call [.g_main_loop_quit s.m_loop], true)
  | .GST_MESSAGE_WARNING => (s, true)
  | .GST_MESSAGE_ERROR =>
    ({ s with m_errorOccurred := true }.call [.g_main_loop_quit s.m_loop], true)
  | .GST_MESSAGE_STATE_CHANGED => (s, true)
  | .GST_MESSAGE_STREAM_STATUS => (s, true)
  | _ => (s, true)

/-- `handleNewDeinterleavePad`, lines 370-402.  `linkResult` is what
`gst_pad_link_full(pad, sinkPad, ...)` returns; the source does not read it. -/
def handleNewDeinterleavePad (s : Reader) (pad : Handle) (linkResult : GstPadLinkReturn) :
    Reader :=
  let queue := s.nextHandle
  let sink := s.nextHandle + 1
  { s with nextHandle := s.nextHandle + 2 }.call
    [ .gst_element_factory_make .queue queue,
      .gst_element_factory_make .appsink sink,
      .gst_app_sink_set_callbacks sink .onAppsinkPullRequiredCallback,
      .g_object_set sink (.sync false),
      .gst_bin_add_many s.m_pipeline [queue, sink],
      .gst_pad_link_full pad queue linkResult,
      .gst_element_link_pads_full queue sink,
      .gst_element_set_state (some queue) .GST_STATE_READY,
      .gst_element_set_state (some sink) .GST_STATE_READY ]

/-- `deinterleavePadsConfigured`, lines 404-409. -/
def deinterleavePadsConfigured (s : Reader) : Reader :=
  s.call [.gst_element_set_state s.m_pipeline .GST_STATE_PLAYING]

/-- `plugDeinterleave`, lines 411-445.  `linkResult` is what
`gst_pad_link_full(pad, sinkPad, ...)` returns; the source does not read it. -/
def plugDeinterleave (s : Reader) (pad : Handle) (linkResult : GstPadLinkReturn) : Reader :=
  let audioConvert := s.nextHandle
  let audioResample := s.nextHandle + 1
  let capsFilter := s.nextHandle + 2
  let deInterleave := s.nextHandle + 3
  { s with m_deInterleave := some deInterleave, nextHandle := s.nextHandle + 4 }.call
    [ .gst_element_factory_make .audioconvert audioConvert,
      .gst_element_factory_make .audioresample audioResample,
      .gst_element_factory_make .capsfilter capsFilter,
      .gst_element_factory_make .deinterleave deInterleave,
      .g_object_set deInterleave (.keep_positions true),
      .g_signal_connect deInterleave .pad_added .onGStreamerDeinterleavePadAddedCallback,
      .g_signal_connect deInterleave .no_more_pads .onGStreamerDeinterleaveReadyCallback,
      .g_object_set capsFilter (.caps 2 s.m_sampleRate),
      .gst_bin_add_many s.m_pipeline [audioConvert, audioResample, capsFilter, deInterleave],
      .gst_pad_link_full pad audioConvert linkResult,
      .gst_element_link_pads_full audioConvert audioResample,
      .gst_element_link_pads_full audioResample capsFilter,
      .gst_element_link_pads_full capsFilter deInterleave,
      .gst_element_sync_state_with_parent audioConvert,
      .gst_element_sync_state_with_parent audioResample,
      .gst_element_sync_state_with_parent capsFilter,
      .gst_element_sync_state_with_parent deInterleave ]

/-- `buildInputPipeline`, lines 447-482: the live-capture path. -/
def buildInputPipeline (s : Reader) : Reader :=
  let source := s.nextHandle
  let audioConvert := s.nextHandle + 1
  let audioResample := s.nextHandle + 2
  let capsFilter := s.nextHandle + 3
  let deInterleave := s.nextHandle + 4
  { s with m_deInterleave := some deInterleave, nextHandle := s.nextHandle + 5 }.call
    [ .gst_element_factory_make .pulsesrc source,
      .gst_element_factory_make .audioconvert audioConvert,
      .gst_element_factory_make .audioresample audioResample,
      .gst_element_factory_make .capsfilter capsFilter,
      .gst_element_factory_make .deinterleave deInterleave,
      .g_object_set deInterleave (.keep_positions true),
      .g_signal_connect deInterleave .pad_added .onGStreamerDeinterleavePadAddedCallback,
      .g_signal_connect deInterleave .no_more_pads .onGStreamerDeinterleaveReadyCallback,
      .g_object_set capsFilter (.caps 2 s.m_sampleRate),
      .gst_bin_add_many s.m_pipeline
        [source, audioConvert, audioResample, capsFilter, deInterleave],
      .gst_element_link_pads_full source audioConvert,
      .gst_element_link_pads_full audioConvert audioResample,
      .gst_element_link_pads_full audioResample capsFilter,
      .gst_element_link_pads_full capsFilter deInterleave,
      .gst_element_sync_state_with_parent source,
      .gst_element_sync_state_with_parent audioConvert,
      .gst_element_sync_state_with_parent audioResample,
      .gst_element_sync_state_with_parent capsFilter,
      .gst_element_sync_state_with_parent deInterleave,
      .gst_element_set_state s.m_pipeline .GST_STATE_PLAYING ]

/-- `decodeAudioForBusCreation`, lines 484-510. -/
def decodeAudioForBusCreation (s : Reader) : Reader :=
  let pipeline := s.nextHandle
  let s1 := { s with m_pipeline := some pipeline, nextHandle := s.nextHandle + 1 }.call
    [ .gst_pipeline_new pipeline,
      .gst_bus_add_signal_watch (some pipeline),
      .g_signal_connect_bus (some pipeline) .message .messageCallback ]
  match s1.m_filePath with
  | some path =>
    let source := s1.nextHandle
    let decodebin := s1.nextHandle + 1
    { s1 with m_decodebin := some decodebin, nextHandle := s1.nextHandle + 2 }.call
      [ .gst_element_factory_make .filesrc source,
        .g_object_set source (.location path),
        .gst_element_factory_make .decodebin decodebin,
        .g_signal_connect decodebin .pad_added .onGStreamerDecodebinPadAddedCallback,
        .gst_bin_add_many s1.m_pipeline [source, decodebin],
        .gst_element_link_pads_full source decodebin,
        .gst_element_set_state s1.m_pipeline .GST_STATE_PAUSED ]
  | none => buildInputPipeline s1

/-- `createBus`, lines 512-558, up to and including the call of `g_main_loop_run`,
inside which the handlers are dispatched.  `enteredMainLoopCallback(this)` is the call of
`decodeAudioForBusCreation`.  `mixToMono` is not read. -/
def createBus (s : Reader) (sampleRate : Int) (mixToMono : Bool) : Reader :=
  let s1 := { s with
      m_sampleRate := sampleRate
      m_frontLeftBuffers := []
      m_frontRightBuffers := [] }.call
    [ .gst_buffer_list_new .m_frontLeftBuffers,
      .gst_buffer_list_new .m_frontRightBuffers ]
  let loop := s1.nextHandle
  let s2 := { s1 with m_loop := some loop, nextHandle := s1.nextHandle + 1 }.call
    [ .g_main_loop_new loop ]
  let s3 := decodeAudioForBusCreation s2
  s3.call [.g_main_loop_run s3.m_loop]

/-- `~AudioStreamChannelsReader`, lines 193-222: the teardown, as a function on the
reader state. -/
def destructor (s : Reader) : Reader :=
  let s1 :=
    match s.m_pipeline with
    | some pipeline =>
      s.call
        [ .g_signal_handlers_disconnect_by_func_bus (some pipeline) .messageCallback,
          .gst_bus_remove_signal_watch (some pipeline),
          .gst_element_set_state (some pipeline) .GST_STATE_NULL,
          .gst_object_unref (some pipeline) ]
    | none => s
  let s2 :=
    match s1.m_decodebin with
    | some decodebin =>
      { s1 with m_decodebin := none }.call
        [ .g_signal_handlers_disconnect_by_func decodebin
            .onGStreamerDecodebinPadAddedCallback ]
    | none => s1
  let s3 :=
    match s2.m_deInterleave with
    | some deInterleave =>
      { s2 with m_deInterleave := none }.call
        [ .g_signal_handlers_disconnect_by_func deInterleave
            .onGStreamerDeinterleavePadAddedCallback,
          .g_signal_handlers_disconnect_by_func deInterleave
            .onGStreamerDeinterleaveReadyCallback ]
    | none => s2
  s3.call
    [ .gst_buffer_list_unref .m_frontLeftBuffers,
      .gst_buffer_list_unref .m_frontRightBuffers ]

/-! ## The event loop -/

/-- What the single-threaded loop dispatches: one handler invocation, with what the
framework passes to it. -/
inductive Event where
  | decodeAudioForBusCreation
  | plugDeinterleave (pad : Handle) (linkResult : GstPadLinkReturn)
  | handleNewDeinterleavePad (pad : Handle) (linkResult : GstPadLinkReturn)
  | deinterleavePadsConfigured
  | handleMessage (message : GstMessageType)
  | handleSample (pulled : Option GstSample)
  deriving DecidableEq, Repr

/-- Dispatch of one event to its handler. -/
def dispatch (s : Reader) : Event → Reader
  | .decodeAudioForBusCreation => AudioStreamChannelsReader.decodeAudioForBusCreation s
  | .plugDeinterleave pad r => AudioStreamChannelsReader.plugDeinterleave s pad r
  | .handleNewDeinterleavePad pad r => AudioStreamChannelsReader.handleNewDeinterleavePad s pad r
  | .deinterleavePadsConfigured => AudioStreamChannelsReader.deinterleavePadsConfigured s
  | .handleMessage message => (AudioStreamChannelsReader.handleMessage s message).1
  | .handleSample pulled => (AudioStreamChannelsReader.handleSample s pulled).1

/-- The handlers run to completion one after the other, in arrival order. -/
def run (s : Reader) (events : List Event) : Reader :=
  events.foldl dispatch s

/-! ## Vocabulary of the properties -/

open GstAudioChannelPosition GstMessageType GstState GstFlowReturn

/-- A sequence of deliveries handled by `handleSample`, one after the other. -/
def handleSamples (s : Reader) (deliveries : List (Option GstSample)) : Reader :=
  deliveries.foldl (fun t pulled => (handleSample t pulled).1) s

/-- A well-formed fragment: the delivery has a sample, the sample a buffer and caps.
The result is the buffer and the audio info of the caps. -/
def wellFormed (pulled : Option GstSample) : Option (GstBuffer × GstAudioInfo) :=
  match pulled with
  | some sample =>
    match sample.buffer, sample.caps with
    | some buffer, some caps => some (buffer, caps.info)
    | _, _ => none
  | none => none

/-- The well-formed fragments among `deliveries` tagged `position`, with their audio
info, in arrival order. -/
def taggedDeliveries (position : GstAudioChannelPosition)
    (deliveries : List (Option GstSample)) : List (GstBuffer × GstAudioInfo) :=
  (deliveries.filterMap wellFormed).filter (fun f => decide (f.2.position0 = position))

/-- The buffers of the well-formed fragments among `deliveries` tagged `position`, in
arrival order. -/
def fragmentsTagged (position : GstAudioChannelPosition)
    (deliveries : List (Option GstSample)) : List GstBuffer :=
  (taggedDeliveries position deliveries).map Prod.fst

/-- Frame duration of a fragment: its buffer duration converted at the rate of its
caps. -/
def frameDuration (f : GstBuffer × GstAudioInfo) : Nat :=
  GST_CLOCK_TIME_TO_FRAMES f.1.duration f.2.rate

/-- The frame duration as `handleSample` holds it, in `int frames`. -/
def frames (f : GstBuffer × GstAudioInfo) : Int :=
  toInt (frameDuration f)

/-- Sum of the frame durations of fragments. -/
def totalFrames (fs : List (GstBuffer × GstAudioInfo)) : Nat :=
  (fs.map frameDuration).sum

/-- The deliveries among the events, in arrival order. -/
def deliveriesOf (events : List Event) : List (Option GstSample) :=
  events.filterMap fun e =>
    match e with
    | .handleSample pulled => some pulled
    | _ => none

/-! ## Reading the record of calls -/

/-- A `gst_element_set_state` call that asks for a state above `GST_STATE_PAUSED`, that
is, for `GST_STATE_PLAYING`: the command that starts the data flow. -/
def beyondPaused : GstCall → Bool
  | .gst_element_set_state _ state => decide (GST_STATE_PAUSED.toNat < state.toNat)
  | _ => false

/-- No element has been commanded beyond `GST_STATE_PAUSED` so far. -/
def neverBeyondPaused (s : Reader) : Bool :=
  s.calls.all fun c => !beyondPaused c

/-- The call that makes an appsink a channel collector of the reader. -/
def attachesCollector : GstCall → Bool
  | .gst_app_sink_set_callbacks _ _ => true
  | _ => false

/-- Number of channel collectors attached so far. -/
def collectorsAttached (s : Reader) : Nat :=
  s.calls.countP attachesCollector

/-- The event is the splitter's no-more-pads event. -/
def isNoMorePads : Event → Bool
  | .deinterleavePadsConfigured => true
  | _ => false

/-- The event is a channel pad event of the splitter. -/
def isChannelPad : Event → Bool
  | .handleNewDeinterleavePad _ _ => true
  | _ => false

/-- The call that constructs a Channel Splitter Stage (a `deinterleave` element). -/
def constructsSplitter : GstCall → Bool
  | .gst_element_factory_make .deinterleave _ => true
  | _ => false

/-- Number of splitters constructed so far. -/
def splittersConstructed (s : Reader) : Nat :=
  s.calls.countP constructsSplitter

/-- The splitter `splitter` has been added to the graph `bin`. -/
def attachedTo (s : Reader) (bin : Option Handle) (splitter : Handle) : Bool :=
  s.calls.any fun c =>
    match c with
    | .gst_bin_add_many b elements => decide (b = bin) && elements.contains splitter
    | _ => false

/-- A request to terminate the event loop. -/
def requestsQuit : GstCall → Bool
  | .g_main_loop_quit _ => true
  | _ => false

/-- Number of termination requests made so far. -/
def quitRequests (s : Reader) : Nat :=
  s.calls.countP requestsQuit

/-- The data members of a reader, without the record of calls. -/
def dataMembers (s : Reader) : Reader :=
  { s with calls := [] }

/-- A sequence of decoder pad-discovery events, each with the result of its pad link. -/
def padDiscoveries (pads : List (Handle × GstPadLinkReturn)) : List Event :=
  pads.map fun p => Event.plugDeinterleave p.1 p.2

/-- The call that constructs a Decode Stage (a `decodebin` element). -/
def constructsDecodeStage : GstCall → Bool
  | .gst_element_factory_make .decodebin _ => true
  | _ => false

/-- The call that constructs a live-capture input (a `pulsesrc` element). -/
def constructsCaptureInput : GstCall → Bool
  | .gst_element_factory_make .pulsesrc _ => true
  | _ => false

/-- A signal disconnection on the Decode Stage or on the splitter. -/
def disconnectsStage : GstCall → Bool
  | .g_signal_handlers_disconnect_by_func _ _ => true
  | _ => false

/-- What the pipeline block of the destructor issues for pipeline `pipeline`. -/
def pipelineTeardown (pipeline : Handle) : List GstCall :=
  [ .g_signal_handlers_disconnect_by_func_bus (some pipeline) .messageCallback,
    .gst_bus_remove_signal_watch (some pipeline),
    .gst_element_set_state (some pipeline) .GST_STATE_NULL,
    .gst_object_unref (some pipeline) ]

/-- The deliveries that are not well-formed front-right fragments. -/
def withoutFrontRight (deliveries : List (Option GstSample)) : List (Option GstSample) :=
  deliveries.filter fun pulled =>
    match wellFormed pulled with
    | some f => !decide (f.2.position0 = GST_AUDIO_CHANNEL_POSITION_FRONT_RIGHT)
    | none => true

/-- The data members other than the front-right collector. -/
def besidesFrontRight (s : Reader) : Reader :=
  { s with m_frontRightBuffers := [] }

/-! ## Sample inputs -/

/-- Storage content before construction, for the samples: a stale pipeline address and
stale buffer lists. -/
def staleStorage : Indeterminate :=
  { m_sampleRate := 0
    m_frontLeftBuffers := [⟨900, 1⟩]
    m_frontRightBuffers := []
    m_pipeline := some 77 }

/-- A reader constructed on a file path and brought by `createBus` to the event loop. -/
def fileReader : Reader :=
  createBus (ofFilePath staleStorage (some "a.ogg")) 44100 false

/-- A well-formed delivery: buffer `id` of `duration` nanoseconds at `rate` Hz, tagged
`position`. -/
def fragment (id : Handle) (duration rate : Nat) (position : GstAudioChannelPosition) :
    Option GstSample :=
  some { buffer := some ⟨id, duration⟩, caps := some ⟨⟨rate, position⟩⟩ }

/-- Deliveries of a short stereo stream at 44100 Hz: 10 ms fragments, with one rear
channel fragment, one empty pull and one sample without caps among them. -/
def sampleDeliveries : List (Option GstSample) :=
  [ fragment 1 10000000 44100 GST_AUDIO_CHANNEL_POSITION_FRONT_LEFT,
    fragment 2 10000000 44100 GST_AUDIO_CHANNEL_POSITION_FRONT_RIGHT,
    fragment 3 10000000 44100 (GstAudioChannelPosition.OTHER 5),
    none,
    some { buffer := some ⟨4, 10000000⟩, caps := none },
    fragment 5 10000000 44100 GST_AUDIO_CHANNEL_POSITION_FRONT_LEFT,
    fragment 6 10000000 44100 GST_AUDIO_CHANNEL_POSITION_FRONT_RIGHT ]

/-- Events of a short decode: the decoder pad, two channel pads, no-more-pads, the
`sampleDeliveries` with a warning among them, and end-of-stream. -/
def sampleEvents : List Event :=
  [ .plugDeinterleave 50 .GST_PAD_LINK_OK,
    .handleNewDeinterleavePad 51 .GST_PAD_LINK_OK,
    .handleNewDeinterleavePad 52 .GST_PAD_LINK_OK,
    .deinterleavePadsConfigured,
    .handleMessage GST_MESSAGE_STATE_CHANGED ]
  ++ sampleDeliveries.map Event.handleSample
  ++ [ .handleMessage GST_MESSAGE_WARNING,
       .handleMessage GST_MESSAGE_EOS ]

/-- Events of a stereo decode up to the last channel pad: pipeline construction, the
decoder pad, two channel pads. -/
def eventsBeforeNoMorePads : List Event :=
  [ .decodeAudioForBusCreation,
    .plugDeinterleave 50 .GST_PAD_LINK_OK,
    .handleNewDeinterleavePad 51 .GST_PAD_LINK_OK,
    .handleNewDeinterleavePad 52 .GST_PAD_LINK_OK ]

/-- Events of the same decode from no-more-pads on. -/
def eventsFromNoMorePads : List Event :=
  [ .deinterleavePadsConfigured,
    .handleMessage GST_MESSAGE_STATE_CHANGED ]
  ++ sampleDeliveries.map Event.handleSample
  ++ [ .handleMessage GST_MESSAGE_EOS ]

/-- A reader constructed on an in-memory byte span of 1024 bytes at address 4096. -/
def dataReader : Reader :=
  ofData staleStorage (some 4096) 1024

/-! ## Fragments of known frame counts -/

/-- The buffer duration, in nanoseconds, a fragment of `n` frames at `rate` Hz carries:
`n * 10^9 / rate`, rounded down. -/
def durationOfFrames (n rate : Nat) : Nat :=
  n * GST_SECOND / rate

/-- Front-left deliveries at `rate` Hz, one for each pair of a buffer address and a
frame count, each carrying the duration of its frame count. -/
def frontLeftFragments (rate : Nat) (fragments : List (Handle × Nat)) :
    List (Option GstSample) :=
  fragments.map fun p =>
    fragment p.1 (durationOfFrames p.2 rate) rate GST_AUDIO_CHANNEL_POSITION_FRONT_LEFT

/-- The true total of frames of the fragments. -/
def trueTotal (fragments : List (Handle × Nat)) : Nat :=
  (fragments.map Prod.snd).sum

/-- A 2-second source at 44100 Hz in four fragments of half a second, 22050 frames
each. -/
def twoSecondFragments : List (Handle × Nat) :=
  [(1, 22050), (2, 22050), (3, 22050), (4, 22050)]

/-! ## Lemmas on `handleSample` -/

theorem handleSample_wellFormed_none (s : Reader) (pulled : Option GstSample)
    (h : wellFormed pulled = none) : handleSample s pulled = (s, GST_FLOW_ERROR) := by
  cases pulled with
  | none => rfl
  | some sample =>
    obtain ⟨buffer, caps⟩ := sample
    cases buffer <;> cases caps <;> simp_all [wellFormed, handleSample]

theorem handleSample_frontLeft (s : Reader) (pulled : Option GstSample)
    (buffer : GstBuffer) (info : GstAudioInfo) (h : wellFormed pulled = some (buffer, info))
    (hp : info.position0 = GST_AUDIO_CHANNEL_POSITION_FRONT_LEFT) :
    handleSample s pulled =
      ({ s with
          m_frontLeftBuffers := s.m_frontLeftBuffers ++ [buffer]
          m_channelSize := addAssignUnsigned s.m_channelSize (frames (buffer, info)) },
        GST_FLOW_OK) := by
  cases pulled with
  | none => simp [wellFormed] at h
  | some sample =>
    obtain ⟨b, c⟩ := sample
    cases b <;> cases c <;> simp [wellFormed] at h
    obtain ⟨rfl, rfl⟩ := h
    simp [handleSample, hp, frames, frameDuration]

theorem handleSample_frontRight (s : Reader) (pulled : Option GstSample)
    (buffer : GstBuffer) (info : GstAudioInfo) (h : wellFormed pulled = some (buffer, info))
    (hp : info.position0 = GST_AUDIO_CHANNEL_POSITION_FRONT_RIGHT) :
    handleSample s pulled =
      ({ s with m_frontRightBuffers := s.m_frontRightBuffers ++ [buffer] }, GST_FLOW_OK) := by
  cases pulled with
  | none => simp [wellFormed] at h
  | some sample =>
    obtain ⟨b, c⟩ := sample
    cases b <;> cases c <;> simp [wellFormed] at h
    obtain ⟨rfl, rfl⟩ := h
    simp [handleSample, hp]

theorem handleSample_other (s : Reader) (pulled : Option GstSample)
    (buffer : GstBuffer) (info : GstAudioInfo) (h : wellFormed pulled = some (buffer, info))
    (hl : info.position0 ≠ GST_AUDIO_CHANNEL_POSITION_FRONT_LEFT)
    (hr : info.position0 ≠ GST_AUDIO_CHANNEL_POSITION_FRONT_RIGHT) :
    handleSample s pulled = (s, GST_FLOW_OK) := by
  cases pulled with
  | none => simp [wellFormed] at h
  | some sample =>
    obtain ⟨b, c⟩ := sample
    cases b <;> cases c <;> simp [wellFormed] at h
    obtain ⟨rfl, rfl⟩ := h
    rename_i caps
    obtain ⟨⟨rate, pos⟩⟩ := caps
    cases pos <;> simp_all [handleSample]

theorem taggedDeliveries_cons_none (position : GstAudioChannelPosition)
    (pulled : Option GstSample) (rest : List (Option GstSample))
    (h : wellFormed pulled = none) :
    taggedDeliveries position (pulled :: rest) = taggedDeliveries position rest := by
  simp [taggedDeliveries, List.filterMap_cons, h]

theorem taggedDeliveries_cons_eq (position : GstAudioChannelPosition)
    (pulled : Option GstSample) (rest : List (Option GstSample))
    (f : GstBuffer × GstAudioInfo) (h : wellFormed pulled = some f)
    (hp : f.2.position0 = position) :
    taggedDeliveries position (pulled :: rest) = f :: taggedDeliveries position rest := by
  simp [taggedDeliveries, List.filterMap_cons, h, hp]

theorem taggedDeliveries_cons_ne (position : GstAudioChannelPosition)
    (pulled : Option GstSample) (rest : List (Option GstSample))
    (f : GstBuffer × GstAudioInfo) (h : wellFormed pulled = some f)
    (hp : f.2.position0 ≠ position) :
    taggedDeliveries position (pulled :: rest) = taggedDeliveries position rest := by
  simp [taggedDeliveries, List.filterMap_cons, h, hp]

theorem handleSamples_cons (s : Reader) (pulled : Option GstSample)
    (rest : List (Option GstSample)) :
    handleSamples s (pulled :: rest) = handleSamples (handleSample s pulled).1 rest := rfl

theorem handleSamples_append (s : Reader) (earlier later : List (Option GstSample)) :
    handleSamples s (earlier ++ later) = handleSamples (handleSamples s earlier) later := by
  simp [handleSamples, List.foldl_append]

/-- One delivery, by cases on the fragment: what `handleSample` leaves behind. -/
theorem handleSample_cases (s : Reader) (pulled : Option GstSample) :
    (wellFormed pulled = none ∧ handleSample s pulled = (s, GST_FLOW_ERROR))
    ∨ (∃ f, wellFormed pulled = some f
        ∧ f.2.position0 = GST_AUDIO_CHANNEL_POSITION_FRONT_LEFT
        ∧ handleSample s pulled =
          ({ s with
              m_frontLeftBuffers := s.m_frontLeftBuffers ++ [f.1]
              m_channelSize := addAssignUnsigned s.m_channelSize (frames f) },
            GST_FLOW_OK))
    ∨ (∃ f, wellFormed pulled = some f
        ∧ f.2.position0 = GST_AUDIO_CHANNEL_POSITION_FRONT_RIGHT
        ∧ handleSample s pulled =
          ({ s with m_frontRightBuffers := s.m_frontRightBuffers ++ [f.1] }, GST_FLOW_OK))
    ∨ (∃ f, wellFormed pulled = some f
        ∧ f.2.position0 ≠ GST_AUDIO_CHANNEL_POSITION_FRONT_LEFT
        ∧ f.2.position0 ≠ GST_AUDIO_CHANNEL_POSITION_FRONT_RIGHT
        ∧ handleSample s pulled = (s, GST_FLOW_OK)) := by
  cases h : wellFormed pulled with
  | none => exact Or.inl ⟨rfl, handleSample_wellFormed_none s pulled h⟩
  | some f =>
    obtain ⟨buffer, info⟩ := f
    by_cases hl : info.position0 = GST_AUDIO_CHANNEL_POSITION_FRONT_LEFT
    · exact Or.inr (Or.inl ⟨_, rfl, hl, handleSample_frontLeft s pulled buffer info h hl⟩)
    · by_cases hr : info.position0 = GST_AUDIO_CHANNEL_POSITION_FRONT_RIGHT
      · exact Or.inr (Or.inr (Or.inl
          ⟨_, rfl, hr, handleSample_frontRight s pulled buffer info h hr⟩))
      · exact Or.inr (Or.inr (Or.inr
          ⟨_, rfl, hl, hr, handleSample_other s pulled buffer info h hl hr⟩))

theorem handleSamples_frontLeftBuffers (s : Reader) (deliveries : List (Option GstSample)) :
    (handleSamples s deliveries).m_frontLeftBuffers =
      s.m_frontLeftBuffers
        ++ fragmentsTagged GST_AUDIO_CHANNEL_POSITION_FRONT_LEFT deliveries := by
  induction deliveries generalizing s with
  | nil => simp [handleSamples, fragmentsTagged, taggedDeliveries]
  | cons pulled rest ih =>
    rw [handleSamples_cons, ih]
    rcases handleSample_cases s pulled with ⟨hw, h⟩ | ⟨f, hw, hp, h⟩ | ⟨f, hw, hp, h⟩
      | ⟨f, hw, hl, hr, h⟩
    · rw [h]; simp [fragmentsTagged, taggedDeliveries_cons_none _ _ _ hw]
    · rw [h]; simp [fragmentsTagged, taggedDeliveries_cons_eq _ _ _ f hw hp]
    · rw [h]
      have hne : f.2.position0 ≠ GST_AUDIO_CHANNEL_POSITION_FRONT_LEFT := by
        rw [hp]; decide
      simp [fragmentsTagged, taggedDeliveries_cons_ne _ _ _ f hw hne]
    · rw [h]; simp [fragmentsTagged, taggedDeliveries_cons_ne _ _ _ f hw hl]

theorem handleSamples_frontRightBuffers (s : Reader) (deliveries : List (Option GstSample)) :
    (handleSamples s deliveries).m_frontRightBuffers =
      s.m_frontRightBuffers
        ++ fragmentsTagged GST_AUDIO_CHANNEL_POSITION_FRONT_RIGHT deliveries := by
  induction deliveries generalizing s with
  | nil => simp [handleSamples, fragmentsTagged, taggedDeliveries]
  | cons pulled rest ih =>
    rw [handleSamples_cons, ih]
    rcases handleSample_cases s pulled with ⟨hw, h⟩ | ⟨f, hw, hp, h⟩ | ⟨f, hw, hp, h⟩
      | ⟨f, hw, hl, hr, h⟩
    · rw [h]; simp [fragmentsTagged, taggedDeliveries_cons_none _ _ _ hw]
    · rw [h]
      have hne : f.2.position0 ≠ GST_AUDIO_CHANNEL_POSITION_FRONT_RIGHT := by
        rw [hp]; decide
      simp [fragmentsTagged, taggedDeliveries_cons_ne _ _ _ f hw hne]
    · rw [h]; simp [fragmentsTagged, taggedDeliveries_cons_eq _ _ _ f hw hp]
    · rw [h]; simp [fragmentsTagged, taggedDeliveries_cons_ne _ _ _ f hw hr]

/-! ## C1: routing of fragments to the collectors -/

/-- C1: for every sequence of deliveries handled by `handleSample` on a reader whose
collectors start empty, the front-left collector holds exactly the well-formed fragments
tagged front-left, in arrival order, and the front-right collector exactly those tagged
front-right, in arrival order; a well-formed fragment with any other position changes
neither collector; one delivery appends to at most one collector, at the back; and the
collectors after a prefix of the deliveries are prefixes of the collectors after all of
them (nothing earlier is reordered or removed). -/
theorem handleSample_routes_fragments (s : Reader) (deliveries : List (Option GstSample))
    (hLeft : s.m_frontLeftBuffers = []) (hRight : s.m_frontRightBuffers = []) :
    (handleSamples s deliveries).m_frontLeftBuffers
        = fragmentsTagged GST_AUDIO_CHANNEL_POSITION_FRONT_LEFT deliveries
    ∧ (handleSamples s deliveries).m_frontRightBuffers
        = fragmentsTagged GST_AUDIO_CHANNEL_POSITION_FRONT_RIGHT deliveries
    ∧ (∀ (t : Reader) (pulled : Option GstSample) (f : GstBuffer × GstAudioInfo),
        wellFormed pulled = some f →
        f.2.position0 ≠ GST_AUDIO_CHANNEL_POSITION_FRONT_LEFT →
        f.2.position0 ≠ GST_AUDIO_CHANNEL_POSITION_FRONT_RIGHT →
        (handleSample t pulled).1.m_frontLeftBuffers = t.m_frontLeftBuffers
        ∧ (handleSample t pulled).1.m_frontRightBuffers = t.m_frontRightBuffers)
    ∧ (∀ (t : Reader) (pulled : Option GstSample),
        ((handleSample t pulled).1.m_frontLeftBuffers = t.m_frontLeftBuffers
          ∧ (handleSample t pulled).1.m_frontRightBuffers = t.m_frontRightBuffers)
        ∨ (∃ buffer,
            (handleSample t pulled).1.m_frontLeftBuffers = t.m_frontLeftBuffers ++ [buffer]
            ∧ (handleSample t pulled).1.m_frontRightBuffers = t.m_frontRightBuffers)
        ∨ (∃ buffer,
            (handleSample t pulled).1.m_frontLeftBuffers = t.m_frontLeftBuffers
            ∧ (handleSample t pulled).1.m_frontRightBuffers
                = t.m_frontRightBuffers ++ [buffer]))
    ∧ (∀ earlier later : List (Option GstSample), deliveries = earlier ++ later →
        (handleSamples s earlier).m_frontLeftBuffers
            <+: (handleSamples s deliveries).m_frontLeftBuffers
        ∧ (handleSamples s earlier).m_frontRightBuffers
            <+: (handleSamples s deliveries).m_frontRightBuffers) := by
  refine ⟨?_, ?_, ?_, ?_, ?_⟩
  · rw [handleSamples_frontLeftBuffers, hLeft, List.nil_append]
  · rw [handleSamples_frontRightBuffers, hRight, List.nil_append]
  · intro t pulled f hw hl hr
    obtain ⟨buffer, info⟩ := f
    rw [handleSample_other t pulled buffer info hw hl hr]
    exact ⟨rfl, rfl⟩
  · intro t pulled
    rcases handleSample_cases t pulled with ⟨_, h⟩ | ⟨f, _, _, h⟩ | ⟨f, _, _, h⟩
      | ⟨f, _, _, _, h⟩
    · rw [h]; exact Or.inl ⟨rfl, rfl⟩
    · rw [h]; exact Or.inr (Or.inl ⟨f.1, rfl, rfl⟩)
    · rw [h]; exact Or.inr (Or.inr ⟨f.1, rfl, rfl⟩)
    · rw [h]; exact Or.inl ⟨rfl, rfl⟩
  · intro earlier later h
    subst h
    rw [handleSamples_append]
    constructor
    · rw [handleSamples_frontLeftBuffers (handleSamples s earlier) later]
      exact List.prefix_append _ _
    · rw [handleSamples_frontRightBuffers (handleSamples s earlier) later]
      exact List.prefix_append _ _

/-- C1 at the sample stream: the collectors of `fileReader` start empty, and after
`sampleDeliveries` they hold buffers 1, 5 and buffers 2, 6. -/
theorem handleSample_routes_fragments_witness :
    fileReader.m_frontLeftBuffers = [] ∧ fileReader.m_frontRightBuffers = []
    ∧ (handleSamples fileReader sampleDeliveries).m_frontLeftBuffers
        = fragmentsTagged GST_AUDIO_CHANNEL_POSITION_FRONT_LEFT sampleDeliveries
    ∧ fragmentsTagged GST_AUDIO_CHANNEL_POSITION_FRONT_LEFT sampleDeliveries
        = [⟨1, 10000000⟩, ⟨5, 10000000⟩]
    ∧ (handleSamples fileReader sampleDeliveries).m_frontRightBuffers
        = fragmentsTagged GST_AUDIO_CHANNEL_POSITION_FRONT_RIGHT sampleDeliveries
    ∧ fragmentsTagged GST_AUDIO_CHANNEL_POSITION_FRONT_RIGHT sampleDeliveries
        = [⟨2, 10000000⟩, ⟨6, 10000000⟩]
    ∧ (handleSample fileReader
          (fragment 3 10000000 44100 (GstAudioChannelPosition.OTHER 5))).1.m_frontLeftBuffers
        = fileReader.m_frontLeftBuffers
    ∧ (handleSamples fileReader (sampleDeliveries.take 2)).m_frontLeftBuffers
        <+: (handleSamples fileReader sampleDeliveries).m_frontLeftBuffers :=
  ⟨rfl, rfl,
    (handleSample_routes_fragments fileReader sampleDeliveries rfl rfl).1,
    by decide,
    (handleSample_routes_fragments fileReader sampleDeliveries rfl rfl).2.1,
    by decide,
    ((handleSample_routes_fragments fileReader sampleDeliveries rfl rfl).2.2.1 fileReader
      (fragment 3 10000000 44100 (GstAudioChannelPosition.OTHER 5))
      (⟨3, 10000000⟩, ⟨44100, GstAudioChannelPosition.OTHER 5⟩) rfl
      (by decide) (by decide)).1,
    ((handleSample_routes_fragments fileReader sampleDeliveries rfl rfl).2.2.2.2
      (sampleDeliveries.take 2) (sampleDeliveries.drop 2) (by decide)).1⟩

/-! ## C2: the frame total follows the front-left collector -/

theorem addAssignUnsigned_toInt (u n : Nat) :
    addAssignUnsigned u (toInt n) = (u + n) % UINT_MODULUS := by
  unfold addAssignUnsigned toInt UINT_MODULUS
  split <;> omega

theorem deliveriesOf_cons (e : Event) (events : List Event) :
    deliveriesOf (e :: events) = deliveriesOf [e] ++ deliveriesOf events := by
  cases e <;> simp [deliveriesOf, List.filterMap_cons]

/-- Only `handleSample` touches the collectors and the frame total. -/
theorem dispatch_collected (s : Reader) (e : Event) :
    (dispatch s e).m_frontLeftBuffers = (handleSamples s (deliveriesOf [e])).m_frontLeftBuffers
    ∧ (dispatch s e).m_frontRightBuffers
        = (handleSamples s (deliveriesOf [e])).m_frontRightBuffers
    ∧ (dispatch s e).m_channelSize = (handleSamples s (deliveriesOf [e])).m_channelSize := by
  cases e with
  | decodeAudioForBusCreation =>
    simp only [dispatch, decodeAudioForBusCreation, buildInputPipeline, Reader.call,
      deliveriesOf, handleSamples]
    cases s.m_filePath <;> simp
  | plugDeinterleave pad r => simp [dispatch, plugDeinterleave, Reader.call, deliveriesOf, handleSamples]
  | handleNewDeinterleavePad pad r =>
    simp [dispatch, handleNewDeinterleavePad, Reader.call, deliveriesOf, handleSamples]
  | deinterleavePadsConfigured =>
    simp [dispatch, deinterleavePadsConfigured, Reader.call, deliveriesOf, handleSamples]
  | handleMessage message =>
    cases message <;> simp [dispatch, handleMessage, Reader.call, deliveriesOf, handleSamples]
  | handleSample pulled => simp [dispatch, deliveriesOf, handleSamples]

theorem handleSamples_channelSize (s : Reader) (deliveries : List (Option GstSample))
    (h : s.m_channelSize < UINT_MODULUS) :
    (handleSamples s deliveries).m_channelSize
      = (s.m_channelSize
          + totalFrames (taggedDeliveries GST_AUDIO_CHANNEL_POSITION_FRONT_LEFT deliveries))
        % UINT_MODULUS := by
  induction deliveries generalizing s with
  | nil =>
    simp [handleSamples, totalFrames, taggedDeliveries, Nat.mod_eq_of_lt h]
  | cons pulled rest ih =>
    rw [handleSamples_cons]
    rcases handleSample_cases s pulled with ⟨hw, hs⟩ | ⟨f, hw, hp, hs⟩ | ⟨f, hw, hp, hs⟩
      | ⟨f, hw, hl, hr, hs⟩
    · rw [hs, ih s h, taggedDeliveries_cons_none _ _ _ hw]
    · rw [hs, ih _ (by
        show addAssignUnsigned s.m_channelSize (frames f) < UINT_MODULUS
        rw [frames, addAssignUnsigned_toInt]
        exact Nat.mod_lt _ (by decide)),
        taggedDeliveries_cons_eq _ _ _ f hw hp]
      show (addAssignUnsigned s.m_channelSize (frames f) + _) % _ = _
      rw [frames, addAssignUnsigned_toInt]
      simp only [totalFrames, List.map_cons, List.sum_cons]
      rw [Nat.add_mod, Nat.mod_mod, ← Nat.add_mod, Nat.add_assoc]
    · have hne : f.2.position0 ≠ GST_AUDIO_CHANNEL_POSITION_FRONT_LEFT := by
        rw [hp]; decide
      rw [hs, ih _ (by exact h), taggedDeliveries_cons_ne _ _ _ f hw hne]
    · rw [hs, ih s h, taggedDeliveries_cons_ne _ _ _ f hw hl]

/-- The frame total after deliveries depends on the reader only through the frame total
it starts from. -/
theorem handleSamples_channelSize_congr (s t : Reader) (deliveries : List (Option GstSample))
    (h : s.m_channelSize = t.m_channelSize) :
    (handleSamples s deliveries).m_channelSize = (handleSamples t deliveries).m_channelSize := by
  induction deliveries generalizing s t with
  | nil => exact h
  | cons pulled rest ih =>
    rw [handleSamples_cons, handleSamples_cons]
    apply ih
    rcases handleSample_cases s pulled with ⟨hw, hs⟩ | ⟨f, hw, hp, hs⟩ | ⟨f, hw, hp, hs⟩
      | ⟨f, hw, hl, hr, hs⟩
    · rw [hs, handleSample_wellFormed_none t pulled hw]; exact h
    · rw [hs, handleSample_frontLeft t pulled f.1 f.2 hw hp]
      show addAssignUnsigned s.m_channelSize _ = addAssignUnsigned t.m_channelSize _
      rw [h]
    · rw [hs, handleSample_frontRight t pulled f.1 f.2 hw hp]; exact h
    · rw [hs, handleSample_other t pulled f.1 f.2 hw hl hr]; exact h

theorem run_cons (s : Reader) (e : Event) (events : List Event) :
    run s (e :: events) = run (dispatch s e) events := rfl

theorem run_append (s : Reader) (earlier later : List Event) :
    run s (earlier ++ later) = run (run s earlier) later := by
  simp [run, List.foldl_append]

/-- The collectors and the frame total after any events are those the deliveries among
the events produce. -/
theorem run_collected (s : Reader) (events : List Event) :
    (run s events).m_frontLeftBuffers
        = (handleSamples s (deliveriesOf events)).m_frontLeftBuffers
    ∧ (run s events).m_frontRightBuffers
        = (handleSamples s (deliveriesOf events)).m_frontRightBuffers
    ∧ (run s events).m_channelSize = (handleSamples s (deliveriesOf events)).m_channelSize := by
  induction events generalizing s with
  | nil => exact ⟨rfl, rfl, rfl⟩
  | cons e rest ih =>
    rw [run_cons, deliveriesOf_cons, handleSamples_append]
    obtain ⟨h1, h2, h3⟩ := dispatch_collected s e
    obtain ⟨i1, i2, i3⟩ := ih (dispatch s e)
    have k1 := handleSamples_frontLeftBuffers (dispatch s e) (deliveriesOf rest)
    have k2 := handleSamples_frontRightBuffers (dispatch s e) (deliveriesOf rest)
    have j1 := handleSamples_frontLeftBuffers (handleSamples s (deliveriesOf [e]))
      (deliveriesOf rest)
    have j2 := handleSamples_frontRightBuffers (handleSamples s (deliveriesOf [e]))
      (deliveriesOf rest)
    refine ⟨?_, ?_, ?_⟩
    · rw [i1, k1, j1, h1]
    · rw [i2, k2, j2, h2]
    · rw [i3]
      exact handleSamples_channelSize_congr _ _ (deliveriesOf rest) h3

theorem createBus_collected (s : Reader) (sampleRate : Int) (mixToMono : Bool) :
    (createBus s sampleRate mixToMono).m_frontLeftBuffers = []
    ∧ (createBus s sampleRate mixToMono).m_frontRightBuffers = []
    ∧ (createBus s sampleRate mixToMono).m_channelSize = s.m_channelSize := by
  simp only [createBus, decodeAudioForBusCreation, buildInputPipeline, Reader.call]
  cases s.m_filePath <;> simp

/-- The invariant of C2 from any reader whose frame total is zero. -/
theorem run_createBus_channelSize (s : Reader) (h : s.m_channelSize = 0)
    (sampleRate : Int) (mixToMono : Bool) (events : List Event) :
    (run (createBus s sampleRate mixToMono) events).m_frontLeftBuffers
        = fragmentsTagged GST_AUDIO_CHANNEL_POSITION_FRONT_LEFT (deliveriesOf events)
    ∧ (run (createBus s sampleRate mixToMono) events).m_channelSize
        = totalFrames
            (taggedDeliveries GST_AUDIO_CHANNEL_POSITION_FRONT_LEFT (deliveriesOf events))
          % UINT_MODULUS := by
  obtain ⟨c1, _, c3⟩ := createBus_collected s sampleRate mixToMono
  obtain ⟨r1, _, r3⟩ := run_collected (createBus s sampleRate mixToMono) events
  constructor
  · rw [r1, handleSamples_frontLeftBuffers, c1, List.nil_append]
  · rw [r3, handleSamples_channelSize _ _ (by rw [c3, h]; decide), c3, h, Nat.zero_add]

/-- C2: in every state reached from a freshly constructed reader (either constructor) by
one `createBus` call followed by any sequence of handler events (fragment deliveries, bus
messages, pad events), the front-left collector holds the well-formed front-left
fragments delivered so far and `m_channelSize` equals the sum, modulo 2^32, of their
frame durations; a well-formed delivery tagged front-right or with any other position,
and any bus message, leaves `m_channelSize` unchanged. -/
theorem channelSize_is_frontLeft_frame_total :
    (∀ (raw : Indeterminate) (filePath : Option String) (sampleRate : Int)
        (mixToMono : Bool) (events : List Event),
      (run (createBus (ofFilePath raw filePath) sampleRate mixToMono) events).m_frontLeftBuffers
          = fragmentsTagged GST_AUDIO_CHANNEL_POSITION_FRONT_LEFT (deliveriesOf events)
      ∧ (run (createBus (ofFilePath raw filePath) sampleRate mixToMono) events).m_channelSize
          = totalFrames
              (taggedDeliveries GST_AUDIO_CHANNEL_POSITION_FRONT_LEFT (deliveriesOf events))
            % UINT_MODULUS)
    ∧ (∀ (raw : Indeterminate) (data : Option Handle) (dataSize : Nat) (sampleRate : Int)
        (mixToMono : Bool) (events : List Event),
      (run (createBus (ofData raw data dataSize) sampleRate mixToMono) events).m_frontLeftBuffers
          = fragmentsTagged GST_AUDIO_CHANNEL_POSITION_FRONT_LEFT (deliveriesOf events)
      ∧ (run (createBus (ofData raw data dataSize) sampleRate mixToMono) events).m_channelSize
          = totalFrames
              (taggedDeliveries GST_AUDIO_CHANNEL_POSITION_FRONT_LEFT (deliveriesOf events))
            % UINT_MODULUS)
    ∧ (∀ (t : Reader) (pulled : Option GstSample) (f : GstBuffer × GstAudioInfo),
        wellFormed pulled = some f →
        f.2.position0 ≠ GST_AUDIO_CHANNEL_POSITION_FRONT_LEFT →
        (handleSample t pulled).1.m_channelSize = t.m_channelSize)
    ∧ (∀ (t : Reader) (message : GstMessageType),
        (handleMessage t message).1.m_channelSize = t.m_channelSize) := by
  refine ⟨?_, ?_, ?_, ?_⟩
  · intro raw filePath sampleRate mixToMono events
    exact run_createBus_channelSize (ofFilePath raw filePath) rfl sampleRate mixToMono events
  · intro raw data dataSize sampleRate mixToMono events
    exact run_createBus_channelSize (ofData raw data dataSize) rfl sampleRate mixToMono events
  · intro t pulled f hw hl
    by_cases hr : f.2.position0 = GST_AUDIO_CHANNEL_POSITION_FRONT_RIGHT
    · rw [handleSample_frontRight t pulled f.1 f.2 hw hr]
    · rw [handleSample_other t pulled f.1 f.2 hw hl hr]
  · intro t message
    cases message <;> rfl

/-- C2 at the sample decode: after `sampleEvents` the frame total of `fileReader` is 882,
the frames of its two front-left fragments of 441 frames each, and a front-right
delivery leaves the total where it was. -/
theorem channelSize_is_frontLeft_frame_total_witness :
    (run fileReader sampleEvents).m_channelSize = 882
    ∧ wellFormed (fragment 2 10000000 44100 GST_AUDIO_CHANNEL_POSITION_FRONT_RIGHT)
        = some (⟨2, 10000000⟩, ⟨44100, GST_AUDIO_CHANNEL_POSITION_FRONT_RIGHT⟩)
    ∧ (handleSample (run fileReader sampleEvents)
          (fragment 2 10000000 44100 GST_AUDIO_CHANNEL_POSITION_FRONT_RIGHT)).1.m_channelSize
        = 882 :=
  ⟨((channelSize_is_frontLeft_frame_total.1 staleStorage (some "a.ogg") 44100 false
        sampleEvents).2).trans (by decide),
    rfl,
    (channelSize_is_frontLeft_frame_total.2.2.1 (run fileReader sampleEvents)
        (fragment 2 10000000 44100 GST_AUDIO_CHANNEL_POSITION_FRONT_RIGHT)
        (⟨2, 10000000⟩, ⟨44100, GST_AUDIO_CHANNEL_POSITION_FRONT_RIGHT⟩) rfl
        (by decide)).trans
      (((channelSize_is_frontLeft_frame_total.1 staleStorage (some "a.ogg") 44100 false
        sampleEvents).2).trans (by decide))⟩

/-! ## C3, C4: bus messages -/

/-- C3: for every reader state, `handleMessage` on an error message sets the error flag,
requests termination of the event loop (one `g_main_loop_quit` on `m_loop`, and no
other call) and leaves both collectors and the frame total as they were; in particular,
after two front-left fragments were appended, the front-left collector still ends with
those two buffers, in the same order, once the error message is handled. -/
theorem handleMessage_error_keeps_collected (s : Reader) :
    (handleMessage s GST_MESSAGE_ERROR).1.m_errorOccurred = true
    ∧ (handleMessage s GST_MESSAGE_ERROR).1.calls = s.calls ++ [GstCall.g_main_loop_quit s.m_loop]
    ∧ (handleMessage s GST_MESSAGE_ERROR).1.m_frontLeftBuffers = s.m_frontLeftBuffers
    ∧ (handleMessage s GST_MESSAGE_ERROR).1.m_frontRightBuffers = s.m_frontRightBuffers
    ∧ (handleMessage s GST_MESSAGE_ERROR).1.m_channelSize = s.m_channelSize
    ∧ (∀ (first second : GstBuffer) (rate1 rate2 : Nat),
        (handleMessage
            (handleSamples s
              [ some ⟨some first, some ⟨⟨rate1, GST_AUDIO_CHANNEL_POSITION_FRONT_LEFT⟩⟩⟩,
                some ⟨some second, some ⟨⟨rate2, GST_AUDIO_CHANNEL_POSITION_FRONT_LEFT⟩⟩⟩ ])
            GST_MESSAGE_ERROR).1.m_frontLeftBuffers
          = s.m_frontLeftBuffers ++ [first, second]
        ∧ (handleMessage
            (handleSamples s
              [ some ⟨some first, some ⟨⟨rate1, GST_AUDIO_CHANNEL_POSITION_FRONT_LEFT⟩⟩⟩,
                some ⟨some second, some ⟨⟨rate2, GST_AUDIO_CHANNEL_POSITION_FRONT_LEFT⟩⟩⟩ ])
            GST_MESSAGE_ERROR).1.m_errorOccurred = true) := by
  refine ⟨rfl, rfl, rfl, rfl, rfl, ?_⟩
  intro first second rate1 rate2
  refine ⟨?_, rfl⟩
  show (handleSamples s _).m_frontLeftBuffers = _
  simp [handleSamples, handleSample]

/-- C4: for every message and every reader state, `handleMessage` requests termination
of the event loop (appends one `g_main_loop_quit` on `m_loop`) if and only if the message
is end-of-stream or error, and otherwise makes no call; the error flag afterwards is the
old flag or-ed with "the message is an error" (set by an error, never cleared, left alone
by end-of-stream); end-of-stream changes nothing but the quit request; a warning,
state-change, stream-status or any other message changes nothing at all; and the
function returns TRUE in every case. -/
theorem handleMessage_dispatch (s : Reader) (message : GstMessageType) :
    ((handleMessage s message).1.calls = s.calls ++ [GstCall.g_main_loop_quit s.m_loop]
        ↔ (message = GST_MESSAGE_EOS ∨ message = GST_MESSAGE_ERROR))
    ∧ ((handleMessage s message).1.calls = s.calls
        ↔ ¬ (message = GST_MESSAGE_EOS ∨ message = GST_MESSAGE_ERROR))
    ∧ (handleMessage s message).1.m_errorOccurred
        = (s.m_errorOccurred || decide (message = GST_MESSAGE_ERROR))
    ∧ (message = GST_MESSAGE_EOS →
        (handleMessage s message).1
          = { s with calls := s.calls ++ [GstCall.g_main_loop_quit s.m_loop] })
    ∧ (message ≠ GST_MESSAGE_EOS → message ≠ GST_MESSAGE_ERROR →
        (handleMessage s message).1 = s)
    ∧ (handleMessage s message).2 = true := by
  cases message <;> simp [handleMessage, Reader.call]

/-- C4 at the sample reader: a warning leaves `fileReader` as it is, end-of-stream adds
the quit request on its loop and keeps the error flag clear. -/
theorem handleMessage_dispatch_witness :
    (handleMessage fileReader GST_MESSAGE_WARNING).1 = fileReader
    ∧ (handleMessage fileReader GST_MESSAGE_EOS).1
        = { fileReader with
            calls := fileReader.calls ++ [GstCall.g_main_loop_quit (some 0)] }
    ∧ (handleMessage fileReader GST_MESSAGE_EOS).1.m_errorOccurred = false :=
  ⟨(handleMessage_dispatch fileReader GST_MESSAGE_WARNING).2.2.2.2.1
      (by decide) (by decide),
    (handleMessage_dispatch fileReader GST_MESSAGE_EOS).2.2.2.1 rfl,
    (handleMessage_dispatch fileReader GST_MESSAGE_EOS).2.2.1.trans (by decide)⟩

/-! ## C5: no data flow before no-more-pads -/

theorem dispatch_filePath (s : Reader) (e : Event) :
    (dispatch s e).m_filePath = s.m_filePath := by
  cases e with
  | decodeAudioForBusCreation =>
    simp only [dispatch, decodeAudioForBusCreation, buildInputPipeline, Reader.call]
    cases s.m_filePath <;> simp
  | plugDeinterleave pad r => rfl
  | handleNewDeinterleavePad pad r => rfl
  | deinterleavePadsConfigured => rfl
  | handleMessage message => cases message <;> rfl
  | handleSample pulled =>
    rcases handleSample_cases s pulled with ⟨_, h⟩ | ⟨f, _, _, h⟩ | ⟨f, _, _, h⟩
      | ⟨f, _, _, _, h⟩ <;> simp [dispatch, h]

theorem handleSample_calls (s : Reader) (pulled : Option GstSample) :
    (handleSample s pulled).1.calls = s.calls := by
  rcases handleSample_cases s pulled with ⟨_, h⟩ | ⟨f, _, _, h⟩ | ⟨f, _, _, h⟩
    | ⟨f, _, _, _, h⟩ <;> simp [h]

/-- With a file path, no handler but `deinterleavePadsConfigured` commands an element
beyond PAUSED. -/
theorem dispatch_neverBeyondPaused (s : Reader) (e : Event) (path : String)
    (hp : s.m_filePath = some path) (he : isNoMorePads e = false)
    (h : neverBeyondPaused s = true) : neverBeyondPaused (dispatch s e) = true := by
  unfold neverBeyondPaused at h ⊢
  cases e with
  | decodeAudioForBusCreation =>
    simp only [dispatch, decodeAudioForBusCreation, Reader.call, hp, List.all_append, h,
      Bool.true_and]
    rfl
  | plugDeinterleave pad r =>
    simp only [dispatch, plugDeinterleave, Reader.call, List.all_append, h, Bool.true_and]
    rfl
  | handleNewDeinterleavePad pad r =>
    simp only [dispatch, handleNewDeinterleavePad, Reader.call, List.all_append, h,
      Bool.true_and]
    rfl
  | deinterleavePadsConfigured => simp [isNoMorePads] at he
  | handleMessage message =>
    cases message <;>
      simp only [dispatch, handleMessage, Reader.call, List.all_append, h, Bool.true_and] <;>
      rfl
  | handleSample pulled =>
    simp only [dispatch, handleSample_calls]
    exact h

theorem run_neverBeyondPaused (s : Reader) (events : List Event) (path : String)
    (hp : s.m_filePath = some path) (he : events.all (fun e => !isNoMorePads e) = true)
    (h : neverBeyondPaused s = true) : neverBeyondPaused (run s events) = true := by
  induction events generalizing s with
  | nil => exact h
  | cons e rest ih =>
    rw [run_cons]
    simp only [List.all_cons, Bool.and_eq_true, Bool.not_eq_true'] at he
    exact ih (dispatch s e) (by rw [dispatch_filePath, hp])
      (by simpa using he.2) (dispatch_neverBeyondPaused s e path hp he.1 h)

/-- Only `handleNewDeinterleavePad` attaches a collector. -/
theorem dispatch_collectorsAttached (s : Reader) (e : Event) (he : isChannelPad e = false) :
    collectorsAttached (dispatch s e) = collectorsAttached s := by
  unfold collectorsAttached
  cases e with
  | decodeAudioForBusCreation =>
    simp only [dispatch, decodeAudioForBusCreation, buildInputPipeline, Reader.call]
    cases s.m_filePath <;> simp [List.countP_append, List.countP_cons, attachesCollector]
  | plugDeinterleave pad r =>
    simp [dispatch, plugDeinterleave, Reader.call, List.countP_append, List.countP_cons,
      attachesCollector]
  | handleNewDeinterleavePad pad r => simp [isChannelPad] at he
  | deinterleavePadsConfigured =>
    simp [dispatch, deinterleavePadsConfigured, Reader.call, List.countP_append,
      List.countP_cons, attachesCollector]
  | handleMessage message =>
    cases message <;>
      simp [dispatch, handleMessage, Reader.call, List.countP_append, List.countP_cons,
        attachesCollector]
  | handleSample pulled => simp only [dispatch, handleSample_calls]

theorem run_collectorsAttached (s : Reader) (events : List Event)
    (he : events.all (fun e => !isChannelPad e) = true) :
    collectorsAttached (run s events) = collectorsAttached s := by
  induction events generalizing s with
  | nil => rfl
  | cons e rest ih =>
    rw [run_cons]
    simp only [List.all_cons, Bool.and_eq_true, Bool.not_eq_true'] at he
    rw [ih (dispatch s e) (by simpa using he.2), dispatch_collectorsAttached s e he.1]

/-- C5: for a reader with a file path on which no element has yet been commanded beyond
PAUSED (a reader just constructed on a file path is one), in every state reached through
the event handlers: as long as no-more-pads (`deinterleavePadsConfigured`) has not been
handled, no `gst_element_set_state` call has asked for more than PAUSED; hence a PLAYING
command in the record implies that no-more-pads was handled; and, under the ordering
guarantee that no channel pad event follows no-more-pads, at the moment just before
no-more-pads is handled the data flow has not been started and every channel collector
that is ever attached is attached already. -/
theorem playing_only_after_no_more_pads (s : Reader) (path : String)
    (hPath : s.m_filePath = some path) (hStart : neverBeyondPaused s = true) :
    (∀ events : List Event, events.all (fun e => !isNoMorePads e) = true →
        neverBeyondPaused (run s events) = true)
    ∧ (∀ events : List Event, neverBeyondPaused (run s events) = false →
        Event.deinterleavePadsConfigured ∈ events)
    ∧ (∀ earlier later : List Event,
        earlier.all (fun e => !isNoMorePads e) = true →
        later.all (fun e => !isChannelPad e) = true →
        neverBeyondPaused (run s earlier) = true
        ∧ collectorsAttached (run s (earlier ++ later))
            = collectorsAttached (run s earlier)) := by
  refine ⟨?_, ?_, ?_⟩
  · intro events he
    exact run_neverBeyondPaused s events path hPath he hStart
  · intro events hb
    by_contra hmem
    have he : events.all (fun e => !isNoMorePads e) = true := by
      rw [List.all_eq_true]
      intro e hin
      cases e <;> first | rfl | exact absurd hin hmem
    rw [run_neverBeyondPaused s events path hPath he hStart] at hb
    exact Bool.noConfusion hb
  · intro earlier later he hl
    refine ⟨run_neverBeyondPaused s earlier path hPath he hStart, ?_⟩
    rw [run_append, run_collectorsAttached _ later hl]

/-- C5 at the sample decode: a reader constructed on "a.ogg" has two collectors attached
and no PLAYING command just before no-more-pads, still two collectors at end-of-stream,
and a PLAYING command in the record once no-more-pads was handled. -/
theorem playing_only_after_no_more_pads_witness :
    (ofFilePath staleStorage (some "a.ogg")).m_filePath = some "a.ogg"
    ∧ neverBeyondPaused (ofFilePath staleStorage (some "a.ogg")) = true
    ∧ neverBeyondPaused (run (ofFilePath staleStorage (some "a.ogg")) eventsBeforeNoMorePads)
        = true
    ∧ collectorsAttached (run (ofFilePath staleStorage (some "a.ogg")) eventsBeforeNoMorePads)
        = 2
    ∧ collectorsAttached (run (ofFilePath staleStorage (some "a.ogg"))
          (eventsBeforeNoMorePads ++ eventsFromNoMorePads)) = 2
    ∧ neverBeyondPaused (run (ofFilePath staleStorage (some "a.ogg"))
          (eventsBeforeNoMorePads ++ eventsFromNoMorePads)) = false
    ∧ Event.deinterleavePadsConfigured ∈ eventsBeforeNoMorePads ++ eventsFromNoMorePads :=
  ⟨rfl, rfl,
    (playing_only_after_no_more_pads (ofFilePath staleStorage (some "a.ogg")) "a.ogg" rfl rfl).1
      eventsBeforeNoMorePads (by decide),
    by decide,
    (((playing_only_after_no_more_pads (ofFilePath staleStorage (some "a.ogg")) "a.ogg"
        rfl rfl).2.2 eventsBeforeNoMorePads eventsFromNoMorePads
        (by decide) (by decide)).2).trans (by decide),
    by decide,
    (playing_only_after_no_more_pads (ofFilePath staleStorage (some "a.ogg")) "a.ogg" rfl rfl).2.1
      (eventsBeforeNoMorePads ++ eventsFromNoMorePads) (by decide)⟩

/-! ## C6: decoder pad-discovery events -/

theorem plugDeinterleave_splittersConstructed (s : Reader) (pad : Handle)
    (r : GstPadLinkReturn) :
    splittersConstructed (plugDeinterleave s pad r) = splittersConstructed s + 1 := by
  simp [splittersConstructed, plugDeinterleave, Reader.call, List.countP_append,
    List.countP_cons, constructsSplitter]

theorem run_padDiscoveries (s : Reader) (pads : List (Handle × GstPadLinkReturn)) :
    splittersConstructed (run s (padDiscoveries pads)) = splittersConstructed s + pads.length
    ∧ (run s (padDiscoveries pads)).nextHandle = s.nextHandle + 4 * pads.length
    ∧ (run s (padDiscoveries pads)).m_pipeline = s.m_pipeline
    ∧ (pads ≠ [] →
        (run s (padDiscoveries pads)).m_deInterleave
          = some (s.nextHandle + 4 * pads.length - 1)) := by
  induction pads generalizing s with
  | nil => simp [padDiscoveries, run]
  | cons p rest ih =>
    obtain ⟨i1, i2, i3, i4⟩ := ih (plugDeinterleave s p.1 p.2)
    have hrun : run s (padDiscoveries (p :: rest))
        = run (plugDeinterleave s p.1 p.2) (padDiscoveries rest) := rfl
    rw [hrun]
    refine ⟨?_, ?_, ?_, ?_⟩
    · rw [i1, plugDeinterleave_splittersConstructed, List.length_cons]; omega
    · rw [i2, List.length_cons]
      show @Eq Nat (s.nextHandle + 4 + _) _
      omega
    · rw [i3]; rfl
    · intro _
      cases rest with
      | nil => simp [padDiscoveries, run, plugDeinterleave, Reader.call]
      | cons q rest2 =>
        rw [i4 (by simp)]
        show some (s.nextHandle + 4 + _ - 1) = _
        simp only [List.length_cons]
        congr 1
        show @Eq Nat _ _
        omega

/-- C6, as the code has it: `plugDeinterleave` has no guard against a second
pad-discovery event.  Every event constructs a splitter of its own, adds it to the graph
of the pipeline and makes `m_deInterleave` refer to it: after a sequence of events as
many splitters have been constructed as events were delivered, and `m_deInterleave` is
the splitter of the last event. -/
theorem plugDeinterleave_constructs_on_every_event (s : Reader) :
    (∀ (pad : Handle) (r : GstPadLinkReturn),
        (plugDeinterleave s pad r).m_deInterleave = some (s.nextHandle + 3)
        ∧ splittersConstructed (plugDeinterleave s pad r) = splittersConstructed s + 1
        ∧ attachedTo (plugDeinterleave s pad r) s.m_pipeline (s.nextHandle + 3) = true)
    ∧ (∀ pads : List (Handle × GstPadLinkReturn),
        splittersConstructed (run s (padDiscoveries pads))
          = splittersConstructed s + pads.length)
    ∧ (∀ pads : List (Handle × GstPadLinkReturn), pads ≠ [] →
        (run s (padDiscoveries pads)).m_deInterleave
          = some (s.nextHandle + 4 * pads.length - 1)) := by
  refine ⟨?_, ?_, ?_⟩
  · intro pad r
    refine ⟨rfl, plugDeinterleave_splittersConstructed s pad r, ?_⟩
    simp [attachedTo, plugDeinterleave, Reader.call, List.any_append]
  · intro pads
    exact (run_padDiscoveries s pads).1
  · intro pads h
    exact (run_padDiscoveries s pads).2.2.2 h

/-- C6 at the sample reader: after two pad-discovery events `m_deInterleave` is the
splitter made by the second one. -/
theorem plugDeinterleave_constructs_on_every_event_witness :
    [((50 : Handle), GstPadLinkReturn.GST_PAD_LINK_OK), (60, GstPadLinkReturn.GST_PAD_LINK_OK)]
        ≠ []
    ∧ (run fileReader
          (padDiscoveries
            [(50, GstPadLinkReturn.GST_PAD_LINK_OK),
             (60, GstPadLinkReturn.GST_PAD_LINK_OK)])).m_deInterleave
        = some 11 :=
  ⟨by decide,
    (plugDeinterleave_constructs_on_every_event fileReader).2.2
      [(50, GstPadLinkReturn.GST_PAD_LINK_OK), (60, GstPadLinkReturn.GST_PAD_LINK_OK)]
      (by decide)⟩

/-- C6 refuted as stated: on `fileReader` the second pad-discovery event is not ignored.
It constructs a second splitter, lengthens the record of graph calls and replaces the
splitter reference `m_deInterleave` (7 after the first event, 11 after the second). -/
theorem plugDeinterleave_second_event_not_ignored :
    (plugDeinterleave fileReader 50 .GST_PAD_LINK_OK).m_deInterleave = some 7
    ∧ (plugDeinterleave (plugDeinterleave fileReader 50 .GST_PAD_LINK_OK) 60
          .GST_PAD_LINK_OK).m_deInterleave = some 11
    ∧ splittersConstructed (plugDeinterleave fileReader 50 .GST_PAD_LINK_OK) = 1
    ∧ splittersConstructed
        (plugDeinterleave (plugDeinterleave fileReader 50 .GST_PAD_LINK_OK) 60
          .GST_PAD_LINK_OK) = 2
    ∧ plugDeinterleave (plugDeinterleave fileReader 50 .GST_PAD_LINK_OK) 60 .GST_PAD_LINK_OK
        ≠ plugDeinterleave fileReader 50 .GST_PAD_LINK_OK := by
  decide

/-! ## C7: pad-link failures -/

/-- C7, as the code has it: the result of `gst_pad_link_full` is not read.  Whatever the
link returns, in `plugDeinterleave` and in `handleNewDeinterleavePad`, the error flag is
left as it was, no termination of the event loop is requested, and every data member is
what it is after a successful link. -/
theorem pad_link_result_is_ignored (s : Reader) (pad : Handle) (r : GstPadLinkReturn) :
    (plugDeinterleave s pad r).m_errorOccurred = s.m_errorOccurred
    ∧ quitRequests (plugDeinterleave s pad r) = quitRequests s
    ∧ dataMembers (plugDeinterleave s pad r)
        = dataMembers (plugDeinterleave s pad .GST_PAD_LINK_OK)
    ∧ (handleNewDeinterleavePad s pad r).m_errorOccurred = s.m_errorOccurred
    ∧ quitRequests (handleNewDeinterleavePad s pad r) = quitRequests s
    ∧ dataMembers (handleNewDeinterleavePad s pad r)
        = dataMembers (handleNewDeinterleavePad s pad .GST_PAD_LINK_OK) := by
  refine ⟨rfl, ?_, rfl, rfl, ?_, rfl⟩
  · simp [quitRequests, plugDeinterleave, Reader.call, List.countP_append, List.countP_cons,
      requestsQuit]
  · simp [quitRequests, handleNewDeinterleavePad, Reader.call, List.countP_append,
      List.countP_cons, requestsQuit]

/-- C7 refuted as stated: on `fileReader`, whose error flag is clear and which has made
no quit request, a refused pad link in `plugDeinterleave` or in
`handleNewDeinterleavePad` leaves the flag clear and the loop without a quit request,
whereas an engine error message sets the flag and requests the quit. -/
theorem pad_link_failure_not_fatal :
    GstPadLinkReturn.GST_PAD_LINK_REFUSED ≠ GstPadLinkReturn.GST_PAD_LINK_OK
    ∧ (plugDeinterleave fileReader 50 .GST_PAD_LINK_REFUSED).m_errorOccurred = false
    ∧ quitRequests (plugDeinterleave fileReader 50 .GST_PAD_LINK_REFUSED) = 0
    ∧ (handleNewDeinterleavePad fileReader 51 .GST_PAD_LINK_REFUSED).m_errorOccurred = false
    ∧ quitRequests (handleNewDeinterleavePad fileReader 51 .GST_PAD_LINK_REFUSED) = 0
    ∧ (handleMessage fileReader GST_MESSAGE_ERROR).1.m_errorOccurred = true
    ∧ quitRequests (handleMessage fileReader GST_MESSAGE_ERROR).1 = 1 := by
  decide

/-! ## C8: the source a reader decodes -/

/-- C8, on the code: `decodeAudioForBusCreation` tests `m_filePath` only, and the
constructor for in-memory data leaves `m_filePath` null.  On a reader constructed on the
path "a.ogg" it constructs the Decode Stage and ends by commanding the pipeline to
PAUSED.  On `dataReader`, constructed from a non-null byte span of 1024 bytes, it
constructs no Decode Stage and leaves `m_decodebin` null; it constructs a live-capture
input instead and commands the pipeline to PLAYING at once. -/
theorem decodeAudioForBusCreation_ignores_data :
    (decodeAudioForBusCreation (ofFilePath staleStorage (some "a.ogg"))).m_decodebin = some 2
    ∧ (decodeAudioForBusCreation (ofFilePath staleStorage (some "a.ogg"))).calls.getLast?
        = some (GstCall.gst_element_set_state (some 0) GST_STATE_PAUSED)
    ∧ neverBeyondPaused (decodeAudioForBusCreation (ofFilePath staleStorage (some "a.ogg")))
        = true
    ∧ dataReader.m_data = some 4096 ∧ dataReader.m_dataSize = 1024
    ∧ (decodeAudioForBusCreation dataReader).m_decodebin = none
    ∧ (decodeAudioForBusCreation dataReader).calls.any constructsDecodeStage = false
    ∧ (decodeAudioForBusCreation dataReader).calls.any constructsCaptureInput = true
    ∧ GstCall.gst_element_set_state (some 0) GST_STATE_PLAYING
        ∈ (decodeAudioForBusCreation dataReader).calls
    ∧ GstCall.gst_element_set_state (some 0) GST_STATE_PAUSED
        ∉ (decodeAudioForBusCreation dataReader).calls := by
  decide

/-! ## C9: teardown -/

/-- C9, as the code has it: the destructor clears `m_decodebin` and `m_deInterleave` but
not `m_pipeline`, and releases the buffer lists unguarded.  Applied a second time it
leaves every data member as the first application left it and makes no signal
disconnection on the Decode Stage or the splitter; what it issues again is the pipeline
block, when `m_pipeline` is non-null, and the two buffer-list releases. -/
theorem destructor_twice (s : Reader) :
    dataMembers (destructor (destructor s)) = dataMembers (destructor s)
    ∧ (destructor (destructor s)).calls
        = (destructor s).calls
          ++ (match s.m_pipeline with
              | some pipeline => pipelineTeardown pipeline
              | none => [])
          ++ [ .gst_buffer_list_unref .m_frontLeftBuffers,
               .gst_buffer_list_unref .m_frontRightBuffers ]
    ∧ ((match s.m_pipeline with
          | some pipeline => pipelineTeardown pipeline
          | none => [])
        ++ [ GstCall.gst_buffer_list_unref .m_frontLeftBuffers,
             GstCall.gst_buffer_list_unref .m_frontRightBuffers ]).any disconnectsStage
        = false := by
  obtain ⟨d, n, p, r, fl, fr, pl, cs, db, di, lp, eo, nh, cl⟩ := s
  cases pl <;> cases db <;> cases di <;>
    simp [destructor, Reader.call, dataMembers, pipelineTeardown, disconnectsStage]

/-- C9 refuted as stated: the second teardown of `fileReader` (pipeline at address 1)
disconnects the bus signal, removes the bus watch, sets the pipeline to NULL and releases
the pipeline and both buffer lists again, so that two teardowns do not leave the state of
one. -/
theorem destructor_not_idempotent :
    (destructor (destructor fileReader)).calls
      = (destructor fileReader).calls
        ++ [ .g_signal_handlers_disconnect_by_func_bus (some 1) .messageCallback,
             .gst_bus_remove_signal_watch (some 1),
             .gst_element_set_state (some 1) .GST_STATE_NULL,
             .gst_object_unref (some 1),
             .gst_buffer_list_unref .m_frontLeftBuffers,
             .gst_buffer_list_unref .m_frontRightBuffers ]
    ∧ destructor (destructor fileReader) ≠ destructor fileReader := by
  decide

/-! ## C10: the front-right collector -/

theorem handleSample_besidesFrontRight (s t : Reader) (pulled : Option GstSample)
    (h : besidesFrontRight s = besidesFrontRight t) :
    besidesFrontRight (handleSample s pulled).1
      = besidesFrontRight (handleSample t pulled).1 := by
  rcases handleSample_cases s pulled with ⟨hw, hs⟩ | ⟨f, hw, hp, hs⟩ | ⟨f, hw, hp, hs⟩
    | ⟨f, hw, hl, hr, hs⟩
  · rw [hs, handleSample_wellFormed_none t pulled hw]; exact h
  · rw [hs, handleSample_frontLeft t pulled f.1 f.2 hw hp]
    obtain ⟨d, n, p, r, fl, fr, pl, cs, db, di, lp, eo, nh, cl⟩ := s
    obtain ⟨d', n', p', r', fl', fr', pl', cs', db', di', lp', eo', nh', cl'⟩ := t
    simp only [besidesFrontRight, Reader.mk.injEq] at h ⊢
    obtain ⟨h1, h2, h3, h4, h5, h6, h7, h8, h9, h10, h11, h12, h13, h14⟩ := h
    subst h1 h2 h3 h4 h5 h7 h8 h9 h10 h11 h12 h13 h14
    simp
  · rw [hs, handleSample_frontRight t pulled f.1 f.2 hw hp]
    exact h
  · rw [hs, handleSample_other t pulled f.1 f.2 hw hl hr]; exact h

theorem handleSamples_besidesFrontRight (s t : Reader) (deliveries : List (Option GstSample))
    (h : besidesFrontRight s = besidesFrontRight t) :
    besidesFrontRight (handleSamples s deliveries)
      = besidesFrontRight (handleSamples t deliveries) := by
  induction deliveries generalizing s t with
  | nil => exact h
  | cons pulled rest ih =>
    rw [handleSamples_cons, handleSamples_cons]
    exact ih _ _ (handleSample_besidesFrontRight s t pulled h)

theorem handleSamples_withoutFrontRight (s : Reader) (deliveries : List (Option GstSample)) :
    besidesFrontRight (handleSamples s deliveries)
      = besidesFrontRight (handleSamples s (withoutFrontRight deliveries)) := by
  induction deliveries generalizing s with
  | nil => rfl
  | cons pulled rest ih =>
    rcases handleSample_cases s pulled with ⟨hw, hs⟩ | ⟨f, hw, hp, hs⟩ | ⟨f, hw, hp, hs⟩
      | ⟨f, hw, hl, hr, hs⟩
    · have hk : withoutFrontRight (pulled :: rest) = pulled :: withoutFrontRight rest := by
        simp [withoutFrontRight, List.filter_cons, hw]
      rw [hk, handleSamples_cons, handleSamples_cons, ih]
    · have hk : withoutFrontRight (pulled :: rest) = pulled :: withoutFrontRight rest := by
        simp [withoutFrontRight, List.filter_cons, hw, hp]
      rw [hk, handleSamples_cons, handleSamples_cons, ih]
    · have hk : withoutFrontRight (pulled :: rest) = withoutFrontRight rest := by
        simp [withoutFrontRight, List.filter_cons, hw, hp]
      rw [hk, handleSamples_cons, ih, hs]
      exact handleSamples_besidesFrontRight _ _ _ rfl
    · have hk : withoutFrontRight (pulled :: rest) = pulled :: withoutFrontRight rest := by
        simp [withoutFrontRight, List.filter_cons, hw, hr]
      rw [hk, handleSamples_cons, handleSamples_cons, ih]

/-- C10, as the code has it: the reader keeps one running frame total, `m_channelSize`,
and the front-right collector has none.  A well-formed front-right delivery appends its
buffer to `m_frontRightBuffers` and changes no other data member; after any sequence of
deliveries the front-right collector holds the front-right fragments in arrival order,
and every other data member, the frame total included, is what it would be had the
front-right fragments never been delivered. -/
theorem frontRight_keeps_no_running_total (s : Reader) :
    (∀ (pulled : Option GstSample) (f : GstBuffer × GstAudioInfo),
        wellFormed pulled = some f →
        f.2.position0 = GST_AUDIO_CHANNEL_POSITION_FRONT_RIGHT →
        (handleSample s pulled).1
          = { s with m_frontRightBuffers := s.m_frontRightBuffers ++ [f.1] })
    ∧ (∀ deliveries : List (Option GstSample),
        (handleSamples s deliveries).m_frontRightBuffers
          = s.m_frontRightBuffers
            ++ fragmentsTagged GST_AUDIO_CHANNEL_POSITION_FRONT_RIGHT deliveries)
    ∧ (∀ deliveries : List (Option GstSample),
        besidesFrontRight (handleSamples s deliveries)
          = besidesFrontRight (handleSamples s (withoutFrontRight deliveries))) := by
  refine ⟨?_, ?_, ?_⟩
  · intro pulled f hw hp
    rw [handleSample_frontRight s pulled f.1 f.2 hw hp]
  · intro deliveries
    exact handleSamples_frontRightBuffers s deliveries
  · intro deliveries
    exact handleSamples_withoutFrontRight s deliveries

/-- C10 at the sample reader: a front-right delivery to `fileReader` changes its
front-right collector and nothing else. -/
theorem frontRight_keeps_no_running_total_witness :
    wellFormed (fragment 2 10000000 44100 GST_AUDIO_CHANNEL_POSITION_FRONT_RIGHT)
        = some (⟨2, 10000000⟩, ⟨44100, GST_AUDIO_CHANNEL_POSITION_FRONT_RIGHT⟩)
    ∧ (handleSample fileReader
          (fragment 2 10000000 44100 GST_AUDIO_CHANNEL_POSITION_FRONT_RIGHT)).1
        = { fileReader with
            m_frontRightBuffers := fileReader.m_frontRightBuffers ++ [⟨2, 10000000⟩] } :=
  ⟨rfl,
    (frontRight_keeps_no_running_total fileReader).1
      (fragment 2 10000000 44100 GST_AUDIO_CHANNEL_POSITION_FRONT_RIGHT)
      (⟨2, 10000000⟩, ⟨44100, GST_AUDIO_CHANNEL_POSITION_FRONT_RIGHT⟩) rfl rfl⟩

/-- C10 refuted as stated: after one front-right fragment of 441 frames is delivered to
`fileReader`, the front-right collector holds 441 frames, yet no data member of the
reader other than the buffer list has changed: the one running total there is,
`m_channelSize`, reads 0. -/
theorem frontRight_total_not_tracked :
    totalFrames (taggedDeliveries GST_AUDIO_CHANNEL_POSITION_FRONT_RIGHT
        [fragment 2 10000000 44100 GST_AUDIO_CHANNEL_POSITION_FRONT_RIGHT]) = 441
    ∧ (handleSample fileReader
          (fragment 2 10000000 44100 GST_AUDIO_CHANNEL_POSITION_FRONT_RIGHT)).1.m_frontRightBuffers
        = [⟨2, 10000000⟩]
    ∧ besidesFrontRight (handleSample fileReader
          (fragment 2 10000000 44100 GST_AUDIO_CHANNEL_POSITION_FRONT_RIGHT)).1
        = besidesFrontRight fileReader
    ∧ (handleSample fileReader
          (fragment 2 10000000 44100 GST_AUDIO_CHANNEL_POSITION_FRONT_RIGHT)).1.m_channelSize
        = 0
    ∧ (handleSample fileReader
          (fragment 2 10000000 44100 GST_AUDIO_CHANNEL_POSITION_FRONT_RIGHT)).1.m_channelSize
        ≠ totalFrames (taggedDeliveries GST_AUDIO_CHANNEL_POSITION_FRONT_RIGHT
            [fragment 2 10000000 44100 GST_AUDIO_CHANNEL_POSITION_FRONT_RIGHT]) := by
  decide

/-! ## C11: deliveries that cannot be retrieved -/

/-- C11: for every reader state, `handleSample` returns `GST_FLOW_ERROR` exactly when the
pulled sample, its buffer or its caps is missing; in that case the reader is left as it
was (both collectors, the frame total, the error flag, the record of calls with its loop
requests, and every other member), and the deliveries that follow are handled as if the
failed one had not occurred; every delivery with a sample, a buffer and caps returns
`GST_FLOW_OK`, whatever its channel position. -/
theorem handleSample_flow_error_skips_delivery (s : Reader) (pulled : Option GstSample) :
    ((handleSample s pulled).2 = GST_FLOW_ERROR
        ↔ (pulled = none
            ∨ ∃ sample, pulled = some sample ∧ (sample.buffer = none ∨ sample.caps = none)))
    ∧ ((handleSample s pulled).2 = GST_FLOW_ERROR → (handleSample s pulled).1 = s)
    ∧ ((handleSample s pulled).2 = GST_FLOW_ERROR →
        ∀ later : List (Option GstSample),
          handleSamples s (pulled :: later) = handleSamples s later)
    ∧ (∀ (buffer : GstBuffer) (caps : GstCaps),
        (handleSample s (some ⟨some buffer, some caps⟩)).2 = GST_FLOW_OK)
    ∧ ((handleSample s pulled).2 = GST_FLOW_OK
        ∨ (handleSample s pulled).2 = GST_FLOW_ERROR) := by
  have hflow : (handleSample s pulled).2 = GST_FLOW_ERROR → wellFormed pulled = none := by
    intro h
    rcases handleSample_cases s pulled with ⟨hw, _⟩ | ⟨f, _, _, hs⟩ | ⟨f, _, _, hs⟩
      | ⟨f, _, _, _, hs⟩
    · exact hw
    · rw [hs] at h; exact GstFlowReturn.noConfusion h
    · rw [hs] at h; exact GstFlowReturn.noConfusion h
    · rw [hs] at h; exact GstFlowReturn.noConfusion h
  refine ⟨⟨?_, ?_⟩, ?_, ?_, ?_, ?_⟩
  · intro h
    have hw := hflow h
    cases pulled with
    | none => exact Or.inl rfl
    | some sample =>
      refine Or.inr ⟨sample, rfl, ?_⟩
      obtain ⟨buffer, caps⟩ := sample
      cases buffer <;> cases caps <;> simp_all [wellFormed]
  · intro h
    have hw : wellFormed pulled = none := by
      rcases h with rfl | ⟨sample, rfl, hb | hc⟩
      · rfl
      · obtain ⟨buffer, caps⟩ := sample
        simp only at hb
        subst hb
        rfl
      · obtain ⟨buffer, caps⟩ := sample
        simp only at hc
        subst hc
        cases buffer <;> rfl
    rw [handleSample_wellFormed_none s pulled hw]
  · intro h
    rw [handleSample_wellFormed_none s pulled (hflow h)]
  · intro h later
    rw [handleSamples_cons, handleSample_wellFormed_none s pulled (hflow h)]
  · intro buffer caps
    rcases handleSample_cases s (some ⟨some buffer, some caps⟩) with ⟨hw, _⟩ | ⟨f, _, _, hs⟩
      | ⟨f, _, _, hs⟩ | ⟨f, _, _, _, hs⟩
    · simp [wellFormed] at hw
    · rw [hs]
    · rw [hs]
    · rw [hs]
  · rcases handleSample_cases s pulled with ⟨_, hs⟩ | ⟨f, _, _, hs⟩ | ⟨f, _, _, hs⟩
      | ⟨f, _, _, _, hs⟩
    · rw [hs]; exact Or.inr rfl
    · rw [hs]; exact Or.inl rfl
    · rw [hs]; exact Or.inl rfl
    · rw [hs]; exact Or.inl rfl

/-- C11 at the sample reader: a sample without caps pulled on `fileReader` gives a flow
error and leaves the reader as it was, and the front-left fragment delivered after it is
collected as usual. -/
theorem handleSample_flow_error_skips_delivery_witness :
    (handleSample fileReader (some { buffer := some ⟨4, 10000000⟩, caps := none })).2
        = GST_FLOW_ERROR
    ∧ (handleSample fileReader (some { buffer := some ⟨4, 10000000⟩, caps := none })).1
        = fileReader
    ∧ handleSamples fileReader
          [ some { buffer := some ⟨4, 10000000⟩, caps := none },
            fragment 5 10000000 44100 GST_AUDIO_CHANNEL_POSITION_FRONT_LEFT ]
        = handleSamples fileReader
          [ fragment 5 10000000 44100 GST_AUDIO_CHANNEL_POSITION_FRONT_LEFT ]
    ∧ (handleSamples fileReader
          [ fragment 5 10000000 44100 GST_AUDIO_CHANNEL_POSITION_FRONT_LEFT ]).m_frontLeftBuffers
        = [⟨5, 10000000⟩] :=
  ⟨(handleSample_flow_error_skips_delivery fileReader
        (some { buffer := some ⟨4, 10000000⟩, caps := none })).1.2
      (Or.inr ⟨_, rfl, Or.inr rfl⟩),
    (handleSample_flow_error_skips_delivery fileReader
        (some { buffer := some ⟨4, 10000000⟩, caps := none })).2.1 rfl,
    (handleSample_flow_error_skips_delivery fileReader
        (some { buffer := some ⟨4, 10000000⟩, caps := none })).2.2.1 rfl
      [ fragment 5 10000000 44100 GST_AUDIO_CHANNEL_POSITION_FRONT_LEFT ],
    by decide⟩

/-! ## C12: frame counts recovered from buffer durations -/

/-- At rates up to 384000 Hz the conversion of a duration back to frames returns the
frame count the duration was made from. -/
theorem GST_CLOCK_TIME_TO_FRAMES_durationOfFrames (n rate : Nat) (hLow : 1 ≤ rate)
    (hHigh : rate ≤ 384000) (hn : n ≤ G_MAXUINT64) :
    GST_CLOCK_TIME_TO_FRAMES (durationOfFrames n rate) rate = n := by
  have h1 : n * 1000000000 / rate * rate ≤ n * 1000000000 := Nat.div_mul_le_self _ _
  have h2 : n * 1000000000 < n * 1000000000 / rate * rate + rate := by
    have h3 := Nat.div_add_mod (n * 1000000000) rate
    have h4 := Nat.mod_lt (n * 1000000000) (show 0 < rate by omega)
    rw [Nat.mul_comm] at h3
    omega
  unfold GST_CLOCK_TIME_TO_FRAMES durationOfFrames GST_SECOND G_MAXUINT64 at *
  generalize n * 1000000000 / rate * rate = x at h1 h2 ⊢
  omega

theorem toInt_of_lt (n : Nat) (h : n < 2147483648) : toInt n = (n : Int) := by
  unfold toInt UINT_MODULUS
  split <;> omega

theorem taggedDeliveries_frontLeftFragments (rate : Nat) (fragments : List (Handle × Nat)) :
    taggedDeliveries GST_AUDIO_CHANNEL_POSITION_FRONT_LEFT (frontLeftFragments rate fragments)
      = fragments.map fun p =>
          ((⟨p.1, durationOfFrames p.2 rate⟩ : GstBuffer),
            (⟨rate, GST_AUDIO_CHANNEL_POSITION_FRONT_LEFT⟩ : GstAudioInfo)) := by
  induction fragments with
  | nil => rfl
  | cons p rest ih =>
    have hw : wellFormed
        (fragment p.1 (durationOfFrames p.2 rate) rate GST_AUDIO_CHANNEL_POSITION_FRONT_LEFT)
        = some (⟨p.1, durationOfFrames p.2 rate⟩,
            ⟨rate, GST_AUDIO_CHANNEL_POSITION_FRONT_LEFT⟩) := rfl
    show taggedDeliveries _ (_ :: frontLeftFragments rate rest) = _
    rw [taggedDeliveries_cons_eq _ _ _ _ hw rfl, ih]
    rfl

theorem totalFrames_frontLeftFragments (rate : Nat) (fragments : List (Handle × Nat))
    (hLow : 1 ≤ rate) (hHigh : rate ≤ 384000) (hSum : trueTotal fragments ≤ G_MAXUINT64) :
    totalFrames
        (taggedDeliveries GST_AUDIO_CHANNEL_POSITION_FRONT_LEFT
          (frontLeftFragments rate fragments))
      = trueTotal fragments := by
  rw [taggedDeliveries_frontLeftFragments]
  induction fragments with
  | nil => rfl
  | cons p rest ih =>
    have hs : trueTotal (p :: rest) = p.2 + trueTotal rest := by
      simp [trueTotal]
    rw [hs] at hSum ⊢
    simp only [totalFrames, List.map_cons, List.sum_cons, frameDuration] at ih ⊢
    rw [ih (by omega),
      GST_CLOCK_TIME_TO_FRAMES_durationOfFrames p.2 rate hLow hHigh (by omega)]

theorem le_trueTotal_of_mem (fragments : List (Handle × Nat)) (p : Handle × Nat)
    (h : p ∈ fragments) : p.2 ≤ trueTotal fragments := by
  induction fragments with
  | nil => cases h
  | cons q rest ih =>
    have hs : trueTotal (q :: rest) = q.2 + trueTotal rest := by
      simp [trueTotal]
    rw [hs]
    rcases List.mem_cons.mp h with rfl | hin
    · omega
    · have := ih hin
      omega

/-- C12: for every sample rate between 1 and 384000 Hz and every sequence of front-left
fragments whose frame counts sum to less than 2^31, each fragment carrying the duration
`floor(N * 10^9 / rate)` of its frame count `N`, handled by `handleSample` on a reader
whose frame total is zero: the frame count computed for each fragment is within one
frame of `N` (it is `N`), and the resulting `m_channelSize` is within one frame of the
true total (it is the true total); for a 2-second source at 44100 Hz it is 88200. -/
theorem frame_total_within_one_frame (s : Reader) (rate : Nat)
    (fragments : List (Handle × Nat)) (hLow : 1 ≤ rate) (hHigh : rate ≤ 384000)
    (hSum : trueTotal fragments < 2147483648) (hZero : s.m_channelSize = 0) :
    (∀ p ∈ fragments,
        Int.natAbs
            (frames (⟨p.1, durationOfFrames p.2 rate⟩,
                ⟨rate, GST_AUDIO_CHANNEL_POSITION_FRONT_LEFT⟩) - (p.2 : Int)) ≤ 1
        ∧ frames (⟨p.1, durationOfFrames p.2 rate⟩,
            ⟨rate, GST_AUDIO_CHANNEL_POSITION_FRONT_LEFT⟩) = (p.2 : Int))
    ∧ (handleSamples s (frontLeftFragments rate fragments)).m_channelSize
        ≤ trueTotal fragments + 1
    ∧ trueTotal fragments
        ≤ (handleSamples s (frontLeftFragments rate fragments)).m_channelSize + 1
    ∧ (handleSamples s (frontLeftFragments rate fragments)).m_channelSize
        = trueTotal fragments
    ∧ (rate = 44100 → trueTotal fragments = 2 * 44100 →
        (handleSamples s (frontLeftFragments rate fragments)).m_channelSize = 88200) := by
  have hTotal : (handleSamples s (frontLeftFragments rate fragments)).m_channelSize
      = trueTotal fragments := by
    rw [handleSamples_channelSize s _ (by rw [hZero]; decide), hZero, Nat.zero_add,
      totalFrames_frontLeftFragments rate fragments hLow hHigh
        (by unfold G_MAXUINT64; omega)]
    unfold UINT_MODULUS
    omega
  refine ⟨?_, ?_, ?_, hTotal, ?_⟩
  · intro p hp
    have hle := le_trueTotal_of_mem fragments p hp
    have hf : frames (⟨p.1, durationOfFrames p.2 rate⟩,
        ⟨rate, GST_AUDIO_CHANNEL_POSITION_FRONT_LEFT⟩) = (p.2 : Int) := by
      show toInt (GST_CLOCK_TIME_TO_FRAMES (durationOfFrames p.2 rate) rate) = _
      rw [GST_CLOCK_TIME_TO_FRAMES_durationOfFrames p.2 rate hLow hHigh
          (by unfold G_MAXUINT64; omega),
        toInt_of_lt p.2 (by omega)]
    refine ⟨?_, hf⟩
    rw [hf]
    simp
  · rw [hTotal]; omega
  · rw [hTotal]; omega
  · intro _ h2
    rw [hTotal, h2]

/-- C12 at a 2-second source at 44100 Hz delivered to `fileReader` in four fragments of
22050 frames: the frame total is 88200. -/
theorem frame_total_within_one_frame_witness :
    1 ≤ 44100 ∧ 44100 ≤ 384000 ∧ trueTotal twoSecondFragments < 2147483648
    ∧ fileReader.m_channelSize = 0
    ∧ (handleSamples fileReader (frontLeftFragments 44100 twoSecondFragments)).m_channelSize
        = 88200 :=
  ⟨by decide, by decide, by decide, rfl,
    (frame_total_within_one_frame fileReader 44100 twoSecondFragments (by decide) (by decide)
      (by decide) rfl).2.2.2.2 rfl (by decide)⟩

end AudioStreamChannelsReader
